import Mathlib

/-!
Verification of the Tesser FX MCP code-generation server
(`packages/mcp/api/server.ts`).

The development shallowly embeds the server's pure core: the static
OpenAPI description, the endpoint-detail extractor, the per-request
spec narrowing, the prompt template and its placeholder substitution,
and the two code-generation tool handlers.  Runtime strings are
modelled as `List Char`; the JavaScript `String.prototype.replace`
with a global literal pattern is modelled by `replaceL`; JSON values
are modelled by the mutually inductive `Json`/`JArr`/`JObj`;
`JSON.stringify(v, null, 2)` is modelled by `stringify`.

The prompt template and the endpoint-specific guidance blocks are
multi-kilobyte literals in the source.  They are transcribed here as
concatenations of their lines / of their fragments between placeholder
occurrences, so that facts about the assembled prompt can be proved
compositionally.
-/

set_option maxRecDepth 100000

namespace Tesser

/-! ## Character-list scanning primitives -/

/-- `isPrefixL p s` : `p` is a literal prefix of `s`. -/
def isPrefixL : List Char → List Char → Bool
  | [], _ => true
  | _ :: _, [] => false
  | p :: ps, c :: cs => p == c && isPrefixL ps cs

/-- One pass of JavaScript `s.replace(/tok/g, rep)` for a literal token:
scan left to right; at a match emit `rep` and resume after the token
(the counter argument skips the remaining matched characters); the
replacement text is not rescanned. -/
def replaceAux (tok rep : List Char) : Nat → List Char → List Char
  | _, [] => []
  | k+1, _ :: cs => replaceAux tok rep k cs
  | 0, c :: cs =>
    if isPrefixL tok (c :: cs) then
      rep ++ replaceAux tok rep (tok.length - 1) cs
    else
      c :: replaceAux tok rep 0 cs

/-- JavaScript `s.replace(/tok/g, rep)` for a literal token `tok`. -/
def replaceL (tok rep s : List Char) : List Char := replaceAux tok rep 0 s

/-- `containsL tok s` : `tok` occurs (contiguously) somewhere in `s`. -/
def containsL (tok : List Char) : List Char → Bool
  | [] => isPrefixL tok []
  | c :: cs => isPrefixL tok (c :: cs) || containsL tok cs

/-- `hasBB s` : `s` contains two adjacent `'\x7b'` characters
(the opening of a `\x7b\x7bNAME\x7d\x7d` placeholder). -/
def hasBB : List Char → Bool
  | c1 :: c2 :: cs => (c1 == '{' && c2 == '{') || hasBB (c2 :: cs)
  | _ => false

/-- `endsLB s` : the last character of `s` is `'\x7b'`. -/
def endsLB : List Char → Bool
  | [] => false
  | [c] => c == '{'
  | _ :: c :: cs => endsLB (c :: cs)

/-- `noLB s` : `s` contains no `'\x7b'` at all. -/
def noLB : List Char → Bool
  | [] => true
  | c :: cs => c != '{' && noLB cs

/-- `mismatchWithin a b` : the two lists differ at some position that
exists in both, so `a` can never be a prefix of `b ++ r`. -/
def mismatchWithin : List Char → List Char → Bool
  | _, [] => false
  | [], _ => false
  | a :: as, b :: bs => a != b || mismatchWithin as bs

/-! ## Lemmas about the scanning primitives -/

theorem isPrefixL_append_self (a r : List Char) : isPrefixL a (a ++ r) = true := by
  induction a with
  | nil => rfl
  | cons c cs ih => simp [isPrefixL, ih]

theorem isPrefixL_false_of_mismatchWithin (a b r : List Char)
    (h : mismatchWithin a b = true) : isPrefixL a (b ++ r) = false := by
  induction a generalizing b with
  | nil => cases b <;> simp [mismatchWithin] at h
  | cons x xs ih =>
    cases b with
    | nil => simp [mismatchWithin] at h
    | cons y ys =>
      simp only [List.cons_append, isPrefixL]
      cases hxy : x == y with
      | false => simp
      | true =>
        simp only [Bool.true_and]
        simp only [mismatchWithin, Bool.or_eq_true, bne_iff_ne] at h
        rcases h with h | h
        · exact absurd (by exact beq_iff_eq.mp hxy) h
        · exact ih ys h

theorem hasBB_cons_false {c : Char} {cs : List Char}
    (h : hasBB (c :: cs) = false) : hasBB cs = false := by
  cases cs with
  | nil => rfl
  | cons c2 cs' =>
    simp only [hasBB, Bool.or_eq_false_iff] at h
    exact h.2

theorem hasBB_head {c1 c2 : Char} {cs : List Char}
    (h : hasBB (c1 :: c2 :: cs) = false) : (c1 == '{' && c2 == '{') = false := by
  simp only [hasBB, Bool.or_eq_false_iff] at h
  exact h.1

theorem endsLB_cons_false {c : Char} {cs : List Char}
    (h : endsLB (c :: cs) = false) (hne : cs ≠ []) : endsLB cs = false := by
  cases cs with
  | nil => exact absurd rfl hne
  | cons c2 cs' => exact h

/-- Core scan step: scanning for a token that begins with two opening
braces through text with no adjacent brace pair and no trailing open
brace passes the text through unchanged. -/
theorem replaceAux_passthrough (ts rep p r : List Char)
    (hp : hasBB p = false) (he : endsLB p = false) :
    replaceAux ('{' :: '{' :: ts) rep 0 (p ++ r) =
      p ++ replaceAux ('{' :: '{' :: ts) rep 0 r := by
  induction p with
  | nil => rfl
  | cons c p' ih =>
    have hnomatch : isPrefixL ('{' :: '{' :: ts) (c :: (p' ++ r)) = false := by
      simp only [isPrefixL]
      cases hc : '{' == c with
      | false => simp
      | true =>
        have hc' : c = '{' := (beq_iff_eq.mp hc).symm
        subst hc'
        cases p' with
        | nil => simp [endsLB] at he
        | cons c2 p'' =>
          have h2 : ('{' == c2) = false := by
            cases h2 : '{' == c2 with
            | false => rfl
            | true =>
              have hc2 : c2 = '{' := (beq_iff_eq.mp h2).symm
              subst hc2
              simp [hasBB] at hp
          simp only [List.cons_append, isPrefixL, h2]
          simp
    calc replaceAux ('{' :: '{' :: ts) rep 0 ((c :: p') ++ r)
        = c :: replaceAux ('{' :: '{' :: ts) rep 0 (p' ++ r) := by
          simp [replaceAux, hnomatch]
      _ = c :: (p' ++ replaceAux ('{' :: '{' :: ts) rep 0 r) := by
          rw [ih (hasBB_cons_false hp)
            (by
              cases p' with
              | nil => rfl
              | cons c2 p'' => exact endsLB_cons_false he (by simp))]
      _ = (c :: p') ++ replaceAux ('{' :: '{' :: ts) rep 0 r := rfl

/-- Skipping exactly the length of a consumed block lands at its end. -/
theorem replaceAux_skip (tok rep ys r : List Char) :
    replaceAux tok rep ys.length (ys ++ r) = replaceAux tok rep 0 r := by
  induction ys with
  | nil => rfl
  | cons y ys' ih => simpa [replaceAux] using ih

/-- Scanning at an exact token occurrence emits the replacement and
resumes after the token. -/
theorem replaceAux_match (c : Char) (ts rep r : List Char) :
    replaceAux (c :: ts) rep 0 ((c :: ts) ++ r) =
      rep ++ replaceAux (c :: ts) rep 0 r := by
  have hpre : isPrefixL (c :: ts) ((c :: ts) ++ r) = true := isPrefixL_append_self _ _
  have hlen : (c :: ts).length - 1 = ts.length := by simp
  calc replaceAux (c :: ts) rep 0 ((c :: ts) ++ r)
      = rep ++ replaceAux (c :: ts) rep ((c :: ts).length - 1) (ts ++ r) := by
        have hpre2 : isPrefixL (c :: ts) (c :: (ts ++ r)) = true := by
          simpa using hpre
        simp only [List.cons_append, replaceAux, List.append_eq]
        rw [if_pos hpre2]
    _ = rep ++ replaceAux (c :: ts) rep 0 r := by rw [hlen, replaceAux_skip]

/-- Scanning through the text of a different token: the head position
mismatches and the token's tail is brace-pair free. -/
theorem replaceAux_other_token (ts rep r : List Char) (q : List Char)
    (hq : q ≠ [])
    (hm : mismatchWithin ('{' :: '{' :: ts) q = true)
    (ht : hasBB q.tail = false)
    (he : endsLB q = false) :
    replaceAux ('{' :: '{' :: ts) rep 0 (q ++ r) =
      q ++ replaceAux ('{' :: '{' :: ts) rep 0 r := by
  cases q with
  | nil => exact absurd rfl hq
  | cons c q' =>
    have hnomatch : isPrefixL ('{' :: '{' :: ts) ((c :: q') ++ r) = false :=
      isPrefixL_false_of_mismatchWithin _ _ _ hm
    have he' : endsLB q' = false := by
      cases q' with
      | nil => rfl
      | cons c2 q'' => exact endsLB_cons_false he (by simp)
    calc replaceAux ('{' :: '{' :: ts) rep 0 ((c :: q') ++ r)
        = c :: replaceAux ('{' :: '{' :: ts) rep 0 (q' ++ r) := by
          simp only [List.cons_append] at hnomatch ⊢
          simp [replaceAux, hnomatch]
      _ = (c :: q') ++ replaceAux ('{' :: '{' :: ts) rep 0 r := by
          rw [replaceAux_passthrough ts rep q' r ht he']
          rfl

/-! ## Containment lemmas -/

theorem isPrefixL_append_of_isPrefixL (a s r : List Char)
    (h : isPrefixL a s = true) : isPrefixL a (s ++ r) = true := by
  induction a generalizing s with
  | nil => rfl
  | cons x xs ih =>
    cases s with
    | nil => simp [isPrefixL] at h
    | cons y ys =>
      simp only [isPrefixL, Bool.and_eq_true] at h ⊢
      exact ⟨h.1, ih ys h.2⟩

theorem containsL_append_left (tok s r : List Char) (hne : tok ≠ [])
    (h : containsL tok s = true) : containsL tok (s ++ r) = true := by
  induction s with
  | nil =>
    cases tok with
    | nil => exact absurd rfl hne
    | cons t ts => simp [containsL, isPrefixL] at h
  | cons c cs ih =>
    simp only [containsL, Bool.or_eq_true] at h
    rcases h with h | h
    · simp only [List.cons_append, containsL, Bool.or_eq_true]
      exact Or.inl (isPrefixL_append_of_isPrefixL _ _ _ h)
    · simp only [List.cons_append, containsL, Bool.or_eq_true]
      exact Or.inr (ih h)

theorem containsL_append_right (tok s r : List Char)
    (h : containsL tok r = true) : containsL tok (s ++ r) = true := by
  induction s with
  | nil => simpa using h
  | cons c cs ih =>
    simp only [List.cons_append, containsL, Bool.or_eq_true]
    exact Or.inr ih

/-! ## Negative containment via brace-pair freedom -/

theorem noLB_head {c : Char} {cs : List Char} (h : noLB (c :: cs) = true) :
    (c == '{') = false := by
  simp only [noLB, Bool.and_eq_true, bne_iff_ne] at h
  exact beq_eq_false_iff_ne.mpr h.1

theorem noLB_tail {c : Char} {cs : List Char} (h : noLB (c :: cs) = true) :
    noLB cs = true := by
  simp only [noLB, Bool.and_eq_true] at h
  exact h.2

theorem noLB_hasBB_append {xs : List Char} (ys : List Char)
    (h : noLB xs = true) : hasBB (xs ++ ys) = hasBB ys := by
  induction xs with
  | nil => rfl
  | cons c cs ih =>
    cases cs with
    | nil =>
      cases ys with
      | nil => simp [hasBB]
      | cons y ys' =>
        simp only [List.nil_append, List.cons_append, hasBB]
        simp [noLB_head h]
    | cons c2 cs' =>
      have step : hasBB ((c :: c2 :: cs') ++ ys) =
          ((c == '{' && c2 == '{') || hasBB ((c2 :: cs') ++ ys)) := rfl
      rw [step, ih (noLB_tail h), noLB_head h]
      simp

theorem hasBB_append_false {xs ys : List Char}
    (hx : hasBB xs = false) (hy : hasBB ys = false)
    (hb : endsLB xs = false ∨ (∀ c cs, ys = c :: cs → (c == '{') = false)) :
    hasBB (xs ++ ys) = false := by
  induction xs with
  | nil => simpa using hy
  | cons c cs ih =>
    cases cs with
    | nil =>
      cases ys with
      | nil => simp [hasBB]
      | cons y ys' =>
        simp only [List.cons_append, List.nil_append, hasBB, Bool.or_eq_false_iff]
        refine ⟨?_, hy⟩
        rcases hb with hb | hb
        · simp only [endsLB] at hb
          simp [hb]
        · simp [hb y ys' rfl]
    | cons c2 cs' =>
      simp only [List.cons_append, hasBB, Bool.or_eq_false_iff] at hx ⊢
      refine ⟨hx.1, ?_⟩
      have := ih hx.2 (by
        rcases hb with hb | hb
        · exact Or.inl (endsLB_cons_false hb (by simp))
        · exact Or.inr hb)
      simpa using this

/-- A token that begins with two opening braces cannot occur in text
with no adjacent brace pair. -/
theorem containsL_false_of_no_bb (ts s : List Char)
    (h : hasBB s = false) : containsL ('{' :: '{' :: ts) s = false := by
  induction s with
  | nil => rfl
  | cons c cs ih =>
    simp only [containsL, Bool.or_eq_false_iff]
    constructor
    · cases cs with
      | nil => simp [isPrefixL]
      | cons c2 cs' =>
        have hpair := hasBB_head h
        simp only [isPrefixL]
        rcases Bool.and_eq_false_iff.mp hpair with h1 | h1
        · have h1' : ('{' == c) = false := by
            cases hcc : '{' == c with
            | false => rfl
            | true =>
              have hcc' : c = '{' := (beq_iff_eq.mp hcc).symm
              subst hcc'
              simp at h1
          simp [h1']
        · have h1' : ('{' == c2) = false := by
            cases hcc : '{' == c2 with
            | false => rfl
            | true =>
              have hcc' : c2 = '{' := (beq_iff_eq.mp hcc).symm
              subst hcc'
              simp at h1
          simp [h1']
    · exact ih (hasBB_cons_false h)

/-! ## JSON values

JavaScript objects and arrays are modelled by a mutually inductive
type so that traversals are structurally recursive (and hence reduce
in the kernel).  Key order is preserved, matching JavaScript object
literal semantics. -/

mutual
inductive Json where
  | null : Json
  | bool (b : Bool) : Json
  | num (n : Int) : Json
  | str (s : String) : Json
  | arr (a : JArr) : Json
  | obj (o : JObj) : Json
inductive JArr where
  | nil : JArr
  | cons (hd : Json) (tl : JArr) : JArr
inductive JObj where
  | nil : JObj
  | cons (k : String) (v : Json) (tl : JObj) : JObj
end

def listToArr : List Json → JArr
  | [] => .nil
  | j :: js => .cons j (listToArr js)

def listToObj : List (String × Json) → JObj
  | [] => .nil
  | (k, v) :: kvs => .cons k v (listToObj kvs)

/-- Object literal builder. -/
def J.o (l : List (String × Json)) : Json := .obj (listToObj l)
/-- Array literal builder. -/
def J.a (l : List Json) : Json := .arr (listToArr l)
/-- String literal builder. -/
def J.s (s : String) : Json := .str s
/-- Number literal builder. -/
def J.n (n : Int) : Json := .num n
/-- Boolean literal builder. -/
def J.b (b : Bool) : Json := .bool b

/-- Property access `o[k]` on an object; `none` (undefined) on
anything that is not an object with that key.  Matches JavaScript
member access combined with optional chaining, where accessing a
property of a non-object primitive or a missing key yields
`undefined`. -/
def jsGet : Json → String → Option Json
  | .obj o, k => jsGetObj o k
  | _, _ => none
where
  jsGetObj : JObj → String → Option Json
    | .nil, _ => none
    | .cons k' v tl, k => if k' = k then some v else jsGetObj tl k

/-- Optional chaining `o?.[k]` applied to an already-optional value. -/
def jsGetOpt (o : Option Json) (k : String) : Option Json :=
  match o with
  | none => none
  | some v => jsGet v k

/-- JavaScript truthiness of a value.  (`undefined` is handled at the
`Option` level by `truthyOpt`.) -/
def truthyJ : Json → Bool
  | .null => false
  | .bool b => b
  | .num n => n != 0
  | .str s => s ≠ ""
  | .arr _ => true
  | .obj _ => true

/-- Collapse a possibly-missing value to `none` when it is absent or
falsy — the test performed by `if (!x)` and by `a || b`. -/
def truthyOpt (o : Option Json) : Option Json :=
  match o with
  | none => none
  | some v => if truthyJ v then some v else none

/-- The keys of a JSON object, in order; `[]` for non-objects. -/
def objKeys : Json → List String
  | .obj o => objKeysObj o
  | _ => []
where
  objKeysObj : JObj → List String
    | .nil => []
    | .cons k _ tl => k :: objKeysObj tl

/-- The static OpenAPI description returned by `getOpenAPISpec` in
`server.ts` (transcribed verbatim, preserving key order). -/
def getOpenAPISpec : Json :=
  (J.o [
    ("openapi", (J.s ("3.1.0"))),
    ("info", (J.o [
      ("title", (J.s ("Tesser FX Quote & Payment API"))),
      ("version", (J.s ("1.0.0"))),
      ("description", (J.s ("Two-call workflow: (1) obtain a locked FX quote, (2) submit a payment that consumes it.\nDesign follows bank-grade patterns: versioned base path, event envelope, idempotency keys, cursor-based pagination, and predictive rate-limit headers.")))
    ])),
    ("servers", (J.a [
      (J.o [
        ("url", (J.s ("https://api.tesser.com/v1")))
      ])
    ])),
    ("security", (J.a [
      (J.o [
        ("BearerAuth", (J.a []))
      ])
    ])),
    ("paths", (J.o [
      ("/quotes", (J.o [
        ("post", (J.o [
          ("summary", (J.s ("Obtain a locked FX quote"))),
          ("description", (J.s ("Exactly one of `from_amount` or `to_amount` is required.  A `quote_id` inside the response must be supplied to **POST /payments** within `valid_until`."))),
          ("tags", (J.a [
            (J.s ("Quote"))
          ])),
          ("operationId", (J.s ("createQuote"))),
          ("parameters", (J.a [
            (J.o [
              ("$ref", (J.s ("#/components/parameters/IdempotencyKey")))
            ])
          ])),
          ("requestBody", (J.o [
            ("required", (J.b true)),
            ("content", (J.o [
              ("application/json", (J.o [
                ("schema", (J.o [
                  ("$ref", (J.s ("#/components/schemas/QuoteRequest")))
                ]))
              ]))
            ]))
          ])),
          ("responses", (J.o [
            ("201", (J.o [
              ("$ref", (J.s ("#/components/responses/EventQuote")))
            ])),
            ("400", (J.o [
              ("$ref", (J.s ("#/components/responses/Error")))
            ])),
            ("401", (J.o [
              ("$ref", (J.s ("#/components/responses/AuthError")))
            ])),
            ("409", (J.o [
              ("$ref", (J.s ("#/components/responses/Conflict")))
            ])),
            ("429", (J.o [
              ("$ref", (J.s ("#/components/responses/RateLimit")))
            ]))
          ]))
        ]))
      ])),
      ("/payments", (J.o [
        ("post", (J.o [
          ("summary", (J.s ("Submit a payment using a quote"))),
          ("tags", (J.a [
            (J.s ("Payment"))
          ])),
          ("operationId", (J.s ("submitPayment"))),
          ("parameters", (J.a [
            (J.o [
              ("$ref", (J.s ("#/components/parameters/IdempotencyKey")))
            ])
          ])),
          ("requestBody", (J.o [
            ("required", (J.b true)),
            ("content", (J.o [
              ("application/json", (J.o [
                ("schema", (J.o [
                  ("$ref", (J.s ("#/components/schemas/PaymentRequest")))
                ]))
              ]))
            ]))
          ])),
          ("responses", (J.o [
            ("202", (J.o [
              ("$ref", (J.s ("#/components/responses/EventPayment")))
            ])),
            ("400", (J.o [
              ("$ref", (J.s ("#/components/responses/Error")))
            ])),
            ("401", (J.o [
              ("$ref", (J.s ("#/components/responses/AuthError")))
            ])),
            ("409", (J.o [
              ("$ref", (J.s ("#/components/responses/Conflict")))
            ])),
            ("422", (J.o [
              ("$ref", (J.s ("#/components/responses/Unprocessable")))
            ])),
            ("429", (J.o [
              ("$ref", (J.s ("#/components/responses/RateLimit")))
            ]))
          ]))
        ]))
      ]))
    ])),
    ("components", (J.o [
      ("securitySchemes", (J.o [
        ("BearerAuth", (J.o [
          ("type", (J.s ("http"))),
          ("scheme", (J.s ("bearer"))),
          ("bearerFormat", (J.s ("API_KEY")))
        ]))
      ])),
      ("parameters", (J.o [
        ("IdempotencyKey", (J.o [
          ("in", (J.s ("header"))),
          ("name", (J.s ("Idempotency-Key"))),
          ("description", (J.s ("A unique value (max 255 bytes) that makes the request idempotent for 24 h."))),
          ("required", (J.b false)),
          ("schema", (J.o [
            ("type", (J.s ("string"))),
            ("maxLength", (J.n 255))
          ]))
        ])),
        ("PageSize", (J.o [
          ("in", (J.s ("query"))),
          ("name", (J.s ("page_size"))),
          ("description", (J.s ("Max records per page (default 50, max 200)."))),
          ("required", (J.b false)),
          ("schema", (J.o [
            ("type", (J.s ("integer"))),
            ("minimum", (J.n 1)),
            ("maximum", (J.n 200))
          ]))
        ])),
        ("Cursor", (J.o [
          ("in", (J.s ("query"))),
          ("name", (J.s ("cursor"))),
          ("description", (J.s ("Opaque pagination cursor returned by previous call."))),
          ("required", (J.b false)),
          ("schema", (J.o [
            ("type", (J.s ("string")))
          ]))
        ]))
      ])),
      ("schemas", (J.o [
        ("UnixTime", (J.o [
          ("type", (J.s ("integer"))),
          ("example", (J.n 1719878400))
        ])),
        ("Amount", (J.o [
          ("type", (J.s ("string"))),
          ("pattern", (J.s ("^[0-9]+(\\.[0-9]\x7b1,18\x7d)?$"))),
          ("example", (J.s ("1000.00")))
        ])),
        ("QuoteRequest", (J.o [
          ("type", (J.s ("object"))),
          ("required", (J.a [
            (J.s ("to_currency"))
          ])),
          ("properties", (J.o [
            ("client_quote_id", (J.o [
              ("type", (J.s ("string")))
            ])),
            ("from_currency", (J.o [
              ("type", (J.s ("string"))),
              ("example", (J.s ("USDC")))
            ])),
            ("to_currency", (J.o [
              ("type", (J.s ("string"))),
              ("example", (J.s ("EUR")))
            ])),
            ("from_amount", (J.o [
              ("$ref", (J.s ("#/components/schemas/Amount")))
            ])),
            ("to_amount", (J.o [
              ("$ref", (J.s ("#/components/schemas/Amount")))
            ])),
            ("quote_time", (J.o [
              ("$ref", (J.s ("#/components/schemas/UnixTime")))
            ])),
            ("rules", (J.o [
              ("type", (J.s ("array"))),
              ("items", (J.o [
                ("type", (J.s ("object")))
              ]))
            ])),
            ("compliance", (J.o [
              ("type", (J.s ("object")))
            ]))
          ])),
          ("oneOf", (J.a [
            (J.o [
              ("required", (J.a [
                (J.s ("from_amount"))
              ]))
            ]),
            (J.o [
              ("required", (J.a [
                (J.s ("to_amount"))
              ]))
            ])
          ]))
        ])),
        ("QuoteData", (J.o [
          ("type", (J.s ("object"))),
          ("required", (J.a [
            (J.s ("id")),
            (J.s ("valid_until")),
            (J.s ("quotes"))
          ])),
          ("properties", (J.o [
            ("id", (J.o [
              ("type", (J.s ("string"))),
              ("description", (J.s ("Quote ID")))
            ])),
            ("client_quote_id", (J.o [
              ("type", (J.s ("string")))
            ])),
            ("valid_until", (J.o [
              ("$ref", (J.s ("#/components/schemas/UnixTime")))
            ])),
            ("quotes", (J.o [
              ("type", (J.s ("array"))),
              ("items", (J.o [
                ("type", (J.s ("object"))),
                ("required", (J.a [
                  (J.s ("id")),
                  (J.s ("rate")),
                  (J.s ("settlement_period_seconds"))
                ])),
                ("properties", (J.o [
                  ("id", (J.o [
                    ("type", (J.s ("string")))
                  ])),
                  ("rate", (J.o [
                    ("type", (J.s ("number"))),
                    ("format", (J.s ("double")))
                  ])),
                  ("settlement_period_seconds", (J.o [
                    ("type", (J.s ("integer")))
                  ]))
                ]))
              ]))
            ]))
          ]))
        ])),
        ("PaymentRequest", (J.o [
          ("type", (J.s ("object"))),
          ("required", (J.a [
            (J.s ("quote_id"))
          ])),
          ("properties", (J.o [
            ("client_payment_id", (J.o [
              ("type", (J.s ("string")))
            ])),
            ("quote_id", (J.o [
              ("type", (J.s ("string")))
            ]))
          ]))
        ])),
        ("PaymentData", (J.o [
          ("type", (J.s ("object"))),
          ("required", (J.a [
            (J.s ("id")),
            (J.s ("change_at")),
            (J.s ("change"))
          ])),
          ("properties", (J.o [
            ("id", (J.o [
              ("type", (J.s ("string")))
            ])),
            ("client_payment_id", (J.o [
              ("type", (J.s ("string")))
            ])),
            ("change_at", (J.o [
              ("$ref", (J.s ("#/components/schemas/UnixTime")))
            ])),
            ("change", (J.o [
              ("type", (J.s ("string"))),
              ("enum", (J.a [
                (J.s ("payment_created")),
                (J.s ("payment_settled")),
                (J.s ("payment_rejected"))
              ]))
            ])),
            ("reason", (J.o [
              ("type", (J.s ("string")))
            ]))
          ]))
        ])),
        ("EventEnvelope", (J.o [
          ("type", (J.s ("object"))),
          ("required", (J.a [
            (J.s ("id")),
            (J.s ("created_at")),
            (J.s ("type")),
            (J.s ("data"))
          ])),
          ("properties", (J.o [
            ("id", (J.o [
              ("type", (J.s ("string")))
            ])),
            ("created_at", (J.o [
              ("$ref", (J.s ("#/components/schemas/UnixTime")))
            ])),
            ("type", (J.o [
              ("type", (J.s ("string")))
            ])),
            ("reason", (J.o [
              ("type", (J.s ("string")))
            ])),
            ("data", (J.o [
              ("type", (J.s ("object")))
            ]))
          ]))
        ])),
        ("Error", (J.o [
          ("type", (J.s ("object"))),
          ("required", (J.a [
            (J.s ("status")),
            (J.s ("error_code")),
            (J.s ("message"))
          ])),
          ("properties", (J.o [
            ("status", (J.o [
              ("type", (J.s ("integer"))),
              ("example", (J.n 400))
            ])),
            ("error_code", (J.o [
              ("type", (J.s ("string"))),
              ("example", (J.s ("AmountTooSmall")))
            ])),
            ("message", (J.o [
              ("type", (J.s ("string"))),
              ("example", (J.s ("Amount is below minimum.")))
            ]))
          ]))
        ]))
      ])),
      ("responses", (J.o [
        ("EventQuote", (J.o [
          ("description", (J.s ("Quote created"))),
          ("headers", (J.o [
            ("$ref", (J.s ("#/components/headers/RateLimit")))
          ])),
          ("content", (J.o [
            ("application/json", (J.o [
              ("schema", (J.o [
                ("allOf", (J.a [
                  (J.o [
                    ("$ref", (J.s ("#/components/schemas/EventEnvelope")))
                  ]),
                  (J.o [
                    ("properties", (J.o [
                      ("type", (J.o [
                        ("const", (J.s ("quote.created")))
                      ])),
                      ("data", (J.o [
                        ("$ref", (J.s ("#/components/schemas/QuoteData")))
                      ]))
                    ]))
                  ])
                ]))
              ]))
            ]))
          ]))
        ])),
        ("EventPayment", (J.o [
          ("description", (J.s ("Payment event (created / settled / rejected)"))),
          ("headers", (J.o [
            ("$ref", (J.s ("#/components/headers/RateLimit")))
          ])),
          ("content", (J.o [
            ("application/json", (J.o [
              ("schema", (J.o [
                ("allOf", (J.a [
                  (J.o [
                    ("$ref", (J.s ("#/components/schemas/EventEnvelope")))
                  ]),
                  (J.o [
                    ("properties", (J.o [
                      ("type", (J.o [
                        ("enum", (J.a [
                          (J.s ("payment.created")),
                          (J.s ("payment.settled")),
                          (J.s ("payment.rejected"))
                        ]))
                      ])),
                      ("data", (J.o [
                        ("$ref", (J.s ("#/components/schemas/PaymentData")))
                      ]))
                    ]))
                  ])
                ]))
              ]))
            ]))
          ]))
        ])),
        ("Error", (J.o [
          ("description", (J.s ("Validation or business error"))),
          ("content", (J.o [
            ("application/json", (J.o [
              ("schema", (J.o [
                ("$ref", (J.s ("#/components/schemas/Error")))
              ]))
            ]))
          ]))
        ])),
        ("AuthError", (J.o [
          ("description", (J.s ("Authentication required / invalid"))),
          ("content", (J.o [
            ("application/json", (J.o [
              ("schema", (J.o [
                ("$ref", (J.s ("#/components/schemas/Error")))
              ]))
            ]))
          ]))
        ])),
        ("Conflict", (J.o [
          ("description", (J.s ("Resource conflict (e.g., quote already used)"))),
          ("content", (J.o [
            ("application/json", (J.o [
              ("schema", (J.o [
                ("$ref", (J.s ("#/components/schemas/Error")))
              ]))
            ]))
          ]))
        ])),
        ("Unprocessable", (J.o [
          ("description", (J.s ("Semantic validation failed (e.g., BalanceInsufficient)"))),
          ("content", (J.o [
            ("application/json", (J.o [
              ("schema", (J.o [
                ("$ref", (J.s ("#/components/schemas/Error")))
              ]))
            ]))
          ]))
        ])),
        ("RateLimit", (J.o [
          ("description", (J.s ("Too many requests"))),
          ("headers", (J.o [
            ("$ref", (J.s ("#/components/headers/RetryAfter")))
          ])),
          ("content", (J.o [
            ("application/json", (J.o [
              ("schema", (J.o [
                ("$ref", (J.s ("#/components/schemas/Error")))
              ]))
            ]))
          ]))
        ]))
      ])),
      ("headers", (J.o [
        ("RateLimit", (J.o [
          ("X-RateLimit-Limit", (J.o [
            ("description", (J.s ("Total request quota per time-window."))),
            ("schema", (J.o [
              ("type", (J.s ("integer")))
            ]))
          ])),
          ("X-RateLimit-Remaining", (J.o [
            ("description", (J.s ("Remaining calls in the current window."))),
            ("schema", (J.o [
              ("type", (J.s ("integer")))
            ]))
          ]))
        ])),
        ("RetryAfter", (J.o [
          ("Retry-After", (J.o [
            ("description", (J.s ("Seconds until the client may retry."))),
            ("schema", (J.o [
              ("type", (J.s ("integer")))
            ]))
          ]))
        ]))
      ]))
    ]))
  ])

/-! ## Endpoint detail extraction (`getEndpointDetails`) -/

/-- The record built by `getEndpointDetails` on success.  `requestSchema`
and `responses` are `Option` because the source reads them with
optional chaining / plain member access and supplies no default. -/
structure EndpointDetails where
  summary : Json
  description : Json
  operationId : Json
  requestSchema : Option Json
  responses : Option Json
  parameters : Json
  tags : Json


/-- `getEndpointDetails` returns either an error-message string or the
details record (a union type in the source). -/
inductive EndpointDetailsResult where
  | err (msg : String) : EndpointDetailsResult
  | ok (d : EndpointDetails) : EndpointDetailsResult


/-- The field extraction performed on the selected method descriptor:
`summary`/`description`/`operationId` default to `""` via `||`,
`parameters`/`tags` default to `[]` via `||`, while `requestSchema`
(`method.requestBody?.content?.["application/json"]?.schema`) and
`responses` (`method.responses`) are read without a default. -/
def extractDetails (method : Json) : EndpointDetails where
  summary := (truthyOpt (jsGet method ("summary"))).getD (J.s (""))
  description := (truthyOpt (jsGet method ("description"))).getD (J.s (""))
  operationId := (truthyOpt (jsGet method ("operationId"))).getD (J.s (""))
  requestSchema :=
    jsGetOpt (jsGetOpt (jsGetOpt (jsGet method ("requestBody")) ("content"))
      ("application/json")) ("schema")
  responses := jsGet method ("responses")
  parameters := (truthyOpt (jsGet method ("parameters"))).getD (J.a [])
  tags := (truthyOpt (jsGet method ("tags"))).getD (J.a [])

/-- `path.post || path.get || path.put || path.delete` : the first
truthy method entry in that fixed order. -/
def pickMethod (path : Json) : Option Json :=
  (truthyOpt (jsGet path ("post"))).orElse fun _ =>
    (truthyOpt (jsGet path ("get"))).orElse fun _ =>
      (truthyOpt (jsGet path ("put"))).orElse fun _ =>
        truthyOpt (jsGet path ("delete"))

/-- `getEndpointDetails(spec, endpoint)` from `server.ts`:
look up `spec.paths?.[endpoint]`; if falsy return the not-found
string; select the method by `post || get || put || delete`; if none
return the no-method string; otherwise extract the detail fields. -/
def getEndpointDetails (spec : Json) (endpoint : String) : EndpointDetailsResult :=
  match truthyOpt (jsGetOpt (jsGet spec ("paths")) endpoint) with
  | none => .err ("Endpoint not found in specification")
  | some path =>
    match pickMethod path with
    | none => .err ("No supported HTTP method found for endpoint")
    | some method => .ok (extractDetails method)

/-! ## Per-request spec narrowing (`relevantSpec` in `generateCode`) -/

/-- Append a key only when the looked-up value exists.  JavaScript
object literals whose value expression is `undefined` serialize (and
spread) as if the key were absent; every lookup below succeeds on the
static description. -/
def optPairs (l : List (String × Option Json)) : List (String × Json) :=
  l.filterMap fun kv =>
    match kv with
    | (k, some v) => some (k, v)
    | (_, none) => none

/-- The `relevantSpec` object built inside `generateCode` for a request:
`info.title`/`info.version` and `servers` copied from the full spec,
exactly one `paths` entry (the already-looked-up `endpointPath`), a
schema allow-list keyed by the endpoint string, and always
`securitySchemes.BearerAuth` and `parameters.IdempotencyKey`. -/
def relevantSpec (openApiSpec : Json) (endpoint : String) (endpointPath : Json) : Json :=
  J.o [
    ("info", J.o (optPairs [
      ("title", jsGetOpt (jsGet openApiSpec ("info")) ("title")),
      ("version", jsGetOpt (jsGet openApiSpec ("info")) ("version"))])),
    ("servers", (jsGet openApiSpec ("servers")).getD Json.null),
    ("paths", J.o [(endpoint, endpointPath)]),
    ("components", J.o [
      ("schemas", J.o (
        (if endpoint = "/quotes" then
          optPairs [
            ("QuoteRequest", jsGetOpt (jsGetOpt (jsGet openApiSpec ("components")) ("schemas")) ("QuoteRequest")),
            ("QuoteData", jsGetOpt (jsGetOpt (jsGet openApiSpec ("components")) ("schemas")) ("QuoteData")),
            ("EventEnvelope", jsGetOpt (jsGetOpt (jsGet openApiSpec ("components")) ("schemas")) ("EventEnvelope")),
            ("Error", jsGetOpt (jsGetOpt (jsGet openApiSpec ("components")) ("schemas")) ("Error")),
            ("Amount", jsGetOpt (jsGetOpt (jsGet openApiSpec ("components")) ("schemas")) ("Amount")),
            ("UnixTime", jsGetOpt (jsGetOpt (jsGet openApiSpec ("components")) ("schemas")) ("UnixTime"))]
        else []) ++
        (if endpoint = "/payments" then
          optPairs [
            ("PaymentRequest", jsGetOpt (jsGetOpt (jsGet openApiSpec ("components")) ("schemas")) ("PaymentRequest")),
            ("PaymentData", jsGetOpt (jsGetOpt (jsGet openApiSpec ("components")) ("schemas")) ("PaymentData")),
            ("EventEnvelope", jsGetOpt (jsGetOpt (jsGet openApiSpec ("components")) ("schemas")) ("EventEnvelope")),
            ("Error", jsGetOpt (jsGetOpt (jsGet openApiSpec ("components")) ("schemas")) ("Error")),
            ("UnixTime", jsGetOpt (jsGetOpt (jsGet openApiSpec ("components")) ("schemas")) ("UnixTime"))]
        else []))),
      ("securitySchemes", J.o (optPairs [
        ("BearerAuth", jsGetOpt (jsGetOpt (jsGet openApiSpec ("components")) ("securitySchemes")) ("BearerAuth"))])),
      ("parameters", J.o (optPairs [
        ("IdempotencyKey", jsGetOpt (jsGetOpt (jsGet openApiSpec ("components")) ("parameters")) ("IdempotencyKey"))]))])]

/-- The `/quotes` path entry of the static description (the value
`generateCode` looks up and passes into the narrowing). -/
def quotesPathEntry : Json :=
  (jsGetOpt (jsGet getOpenAPISpec ("paths")) ("/quotes")).getD Json.null

/-- The `/payments` path entry of the static description. -/
def paymentsPathEntry : Json :=
  (jsGetOpt (jsGet getOpenAPISpec ("paths")) ("/payments")).getD Json.null

/-! ## `$ref` collection and resolution -/

mutual
/-- All `$ref` string values occurring anywhere in a JSON value, in
document order. -/
def collectRefs : Json → List String
  | .obj o => collectRefsObj o
  | .arr a => collectRefsArr a
  | _ => []
def collectRefsArr : JArr → List String
  | .nil => []
  | .cons j tl => collectRefs j ++ collectRefsArr tl
def collectRefsObj : JObj → List String
  | .nil => []
  | .cons k v tl =>
    (match k, v with
     | "$ref", .str s => [s]
     | _, _ => collectRefs v) ++ collectRefsObj tl
end

/-- Split a list at every occurrence of a separator character. -/
def splitChar (sep : Char) : List Char → List (List Char)
  | [] => [[]]
  | c :: cs =>
    let rest := splitChar sep cs
    if c = sep then [] :: rest
    else
      match rest with
      | [] => [[c]]
      | g :: gs => (c :: g) :: gs

/-- A `$ref` of the form `#/components/<section>/<name>`, where the
section is one of the four component mappings, resolves inside `spec`
iff `<name>` is a key of `spec.components.<section>`. -/
def refResolves (spec : Json) (r : String) : Bool :=
  match splitChar '/' r.toList with
  | [h, comp, sec, name] =>
    (h = ("#").toList && comp = ("components").toList &&
      (sec = ("schemas").toList || sec = ("parameters").toList ||
       sec = ("responses").toList || sec = ("headers").toList)) &&
    (jsGetOpt (jsGet spec ("components")) sec.asString).isSome &&
    (jsGetOpt (jsGetOpt (jsGet spec ("components")) sec.asString) name.asString).isSome
  | _ => false

/-- Every `$ref` in `spec` resolves within `spec` itself. -/
def allRefsResolve (spec : Json) : Bool :=
  (collectRefs spec).all fun r => refResolves spec r


/-! ## `JSON.stringify(v, null, 2)` -/

/-- Decimal digit character for `0 ≤ n ≤ 15` (the hex range is used by
the `\\u00XX` escape). -/
def digitChar : Nat → Char
  | 0 => '0' | 1 => '1' | 2 => '2' | 3 => '3' | 4 => '4'
  | 5 => '5' | 6 => '6' | 7 => '7' | 8 => '8' | 9 => '9'
  | 10 => 'a' | 11 => 'b' | 12 => 'c' | 13 => 'd' | 14 => 'e'
  | _ => 'f' 

/-- Decimal digits of a natural number (fuelled; the fuel bounds the
number of digits and every numeral in the description fits in 12). -/
def natDigits : Nat → Nat → List Char
  | 0, _ => []
  | f + 1, n =>
    if n < 10 then [digitChar n]
    else natDigits f (n / 10) ++ [digitChar (n % 10)]

/-- Decimal rendering of an integer. -/
def intDigits (n : Int) : List Char :=
  if n < 0 then '-' :: natDigits 12 n.natAbs else natDigits 12 n.natAbs

/-- The JSON string escape (ECMA-262 `QuoteJSONString`, without the
surrounding quotes): `\"`, `\\`, the short control escapes, and
`\\u00XX` for other control characters. -/
def escapeChars : List Char → List Char
  | [] => []
  | c :: cs =>
    (if c = '"' then ['\\', '"']
     else if c = '\\' then ['\\', '\\']
     else if c = '\x08' then ['\\', 'b']
     else if c = '\x0c' then ['\\', 'f']
     else if c = '\n' then ['\\', 'n']
     else if c = '\x0d' then ['\\', 'r']
     else if c = '\t' then ['\\', 't']
     else if c.toNat < 32 then
       ['\\', 'u', '0', '0', digitChar (c.toNat / 16), digitChar (c.toNat % 16)]
     else [c]) ++ escapeChars cs

/-- A JSON-quoted string: quotes around the escaped characters. -/
def jsonQuote (s : String) : List Char :=
  '"' :: escapeChars s.toList ++ ['"']

/-- The indentation in effect at nesting level `lvl` for gap `"  "`. -/
def spaces (lvl : Nat) : List Char := List.replicate (2 * lvl) ' '

mutual
/-- `JSON.stringify(v, null, 2)` at nesting level `lvl`: objects and
arrays with at least one entry break across lines with two-space
indentation; empty ones print as `"\x7b\x7d"` / `"[]"`. -/
def stringify (lvl : Nat) : Json → List Char
  | .null => ('n' :: 'u' :: 'l' :: 'l' :: [])
  | .bool true => ('t' :: 'r' :: 'u' :: 'e' :: [])
  | .bool false => ('f' :: 'a' :: 'l' :: 's' :: 'e' :: [])
  | .num n => intDigits n
  | .str s => jsonQuote s
  | .arr .nil => ('[' :: ']' :: [])
  | .arr (.cons j tl) =>
    '[' :: '\n' :: (stringifyItems (lvl + 1) (.cons j tl) ++
      '\n' :: (spaces lvl ++ [']']))
  | .obj .nil => ('\x7b' :: '\x7d' :: [])
  | .obj (.cons k v tl) =>
    '\x7b' :: '\n' :: (stringifyEntries (lvl + 1) (.cons k v tl) ++
      '\n' :: (spaces lvl ++ ['\x7d']))
/-- Array items, one per line at level `lvl`, separated by `",\n"`. -/
def stringifyItems (lvl : Nat) : JArr → List Char
  | .nil => []
  | .cons j .nil => spaces lvl ++ stringify lvl j
  | .cons j (.cons j2 tl) =>
    spaces lvl ++ stringify lvl j ++ ',' :: '\n' :: stringifyItems lvl (.cons j2 tl)
/-- Object entries `"key": value`, one per line at level `lvl`,
separated by `",\n"`. -/
def stringifyEntries (lvl : Nat) : JObj → List Char
  | .nil => []
  | .cons k v .nil => spaces lvl ++ jsonQuote k ++ ':' :: ' ' :: stringify lvl v
  | .cons k v (.cons k2 v2 tl) =>
    spaces lvl ++ jsonQuote k ++ ':' :: ' ' :: stringify lvl v ++
      ',' :: '\n' :: stringifyEntries lvl (.cons k2 v2 tl)
end


/-! ## Languages, placeholder tokens and the prompt template -/

/-- The closed language enumeration of the tool argument schemas. -/
inductive SupportedLanguage where
  | typescript | javascript | python | go | rust | cpp
deriving DecidableEq

/-- Per-language file extension and display name (`LANGUAGE_CONFIG`). -/
structure LangConfig where
  extension : String
  name : String

def LANGUAGE_CONFIG : SupportedLanguage → LangConfig
  | .typescript => ⟨("ts"), ("TypeScript")⟩
  | .javascript => ⟨("js"), ("JavaScript")⟩
  | .python => ⟨("py"), ("Python")⟩
  | .go => ⟨("go"), ("Go")⟩
  | .rust => ⟨("rs"), ("Rust")⟩
  | .cpp => ⟨("cpp"), ("C++")⟩

/-- The five placeholder tokens of the prompt template. -/
inductive Tok where
  | endpoint | language | languageExtension | openapiSpec | endpointSpecificInfo
deriving DecidableEq

/-- The literal text of a placeholder token. -/
def tokText : Tok → List Char
  | .endpoint => ("\x7b\x7bENDPOINT\x7d\x7d").toList
  | .language => ("\x7b\x7bLANGUAGE\x7d\x7d").toList
  | .languageExtension => ("\x7b\x7bLANGUAGE_EXTENSION\x7d\x7d").toList
  | .openapiSpec => ("\x7b\x7bOPENAPI_SPEC\x7d\x7d").toList
  | .endpointSpecificInfo => ("\x7b\x7bENDPOINT_SPECIFIC_INFO\x7d\x7d").toList

/-- A prompt-template segment: literal text or a placeholder token. -/
inductive Seg where
  | lit (p : List Char)
  | tok (t : Tok)

/-- Concatenate a segment list back into text. -/
def render : List Seg → List Char
  | [] => []
  | .lit p :: rest => p ++ render rest
  | .tok t :: rest => tokText t ++ render rest

/-- The prompt template literal from `getPromptTemplate` in `server.ts`,
transcribed as its decomposition at the placeholder occurrences
(`render templateSegs` is the template text, character for character). -/
def templateSegs : List Seg := [
  .lit (("You are an expert software engineer generating a CLIENT LIBRARY for the ").toList),
  .tok .endpoint,
  .lit ((" endpoint of the Tesser FX API.\n\nCRITICAL INSTRUCTIONS:\n- Generate ONLY a client function or class for calling ").toList),
  .tok .endpoint,
  .lit (("\n- DO NOT generate any HTTP server code\n- DO NOT generate any demo endpoints (/demo, /, /quote, etc.)\n- DO NOT generate any server routes or handlers  \n- DO NOT generate any Bun.serve() or Express server code\n- DO NOT generate any console.log statements about \"running on port\"\n- The code must compile without any TypeScript errors\n- Focus ONLY on the client-side API call for ").toList),
  .tok .endpoint,
  .lit (("\n\nTESSER FX API DETAILS:\n- Base URL: https://api.tesser.com/v1\n- Authentication: Bearer token in Authorization header\n- Content-Type: application/json\n\nTARGET ENDPOINT: ").toList),
  .tok .endpoint,
  .lit (("\n").toList),
  .tok .openapiSpec,
  .lit (("\n\nSPECIFIC REQUIREMENTS FOR ").toList),
  .tok .endpoint,
  .lit ((":\n").toList),
  .tok .endpointSpecificInfo,
  .lit (("\n\nOUTPUT REQUIREMENTS:\n1. Generate a client function or class for ").toList),
  .tok .endpoint,
  .lit ((" in ").toList),
  .tok .language,
  .lit (("\n2. Include proper TypeScript types (if ").toList),
  .tok .language,
  .lit ((" supports them) matching the OpenAPI schemas EXACTLY\n3. Handle authentication via Bearer token\n4. Support optional Idempotency-Key header\n5. Handle all documented HTTP response codes for ").toList),
  .tok .endpoint,
  .lit (("\n6. Include proper error handling\n7. Validate input parameters according to the schema\n8. Return the exact response type from the OpenAPI spec\n9. Include a simple usage example of the client function/class\n10. Code must be production-ready and compile without errors\n11. NO server code, NO demo endpoints, NO HTTP handlers\n\nRESPONSE FORMAT - CLIENT CODE ONLY:\n\x27\x27\x27").toList),
  .tok .languageExtension,
  .lit (("\n// Client code for ").toList),
  .tok .endpoint,
  .lit ((" endpoint only\n\x27\x27\x27\n\nGenerate ONLY the client library code for integrating with ").toList),
  .tok .endpoint,
  .lit ((". Do not include any server implementation.").toList)]

/-- `getPromptTemplate()` : the fixed prompt template. -/
def getPromptTemplate : List Char := render templateSegs

/-! ## Endpoint-specific guidance blocks -/

def joinPieces : List (List Char) → List Char
  | [] => []
  | p :: ps => p ++ joinPieces ps

/-- The `endpointInfo` template literal of the `getQuoteCode` handler,
split into its lines (each keeping its newline); the final entry is the
`includeTypes` conditional.  The backslash-dot in the source
amount-pattern line is a JavaScript non-escape denoting a plain dot. -/
def quoteInfoPieces (includeTypes : Bool) : List (List Char) := [
  (("\n").toList),
  (("TESSER FX /quotes ENDPOINT:\n").toList),
  (("This endpoint creates a locked FX quote that can be used for currency exchange.\n").toList),
  (("\n").toList),
  (("KEY REQUIREMENTS FROM OPENAPI SPEC:\n").toList),
  (("- POST to /quotes\n").toList),
  (("- Required: to_currency field\n").toList),
  (("- Either from_amount OR to_amount is required (mutually exclusive)\n").toList),
  (("- Optional fields: client_quote_id, from_currency, quote_time, rules, compliance\n").toList),
  (("- Returns EventEnvelope with type \"quote.created\" and QuoteData in data field\n").toList),
  (("- Quote includes: id, valid_until (unix timestamp), quotes array with rates\n").toList),
  (("- Amount format must match: ^[0-9]+(.[0-9]\x7b1,18\x7d)?$\n").toList),
  (("\n").toList),
  (("AUTHENTICATION & HEADERS:\n").toList),
  (("- Bearer token authentication required\n").toList),
  (("- Optional Idempotency-Key header (max 255 bytes)\n").toList),
  (("- Content-Type: application/json\n").toList),
  (("\n").toList),
  (("ERROR RESPONSES:\n").toList),
  (("- 400: Validation errors (bad request format)\n").toList),
  (("- 401: Authentication failed\n").toList),
  (("- 409: Conflict (idempotency key reused)\n").toList),
  (("- 429: Rate limit exceeded (with Retry-After header)\n").toList),
  (("\n").toList),
  (("INTEGRATION NOTES:\n").toList),
  (("- Store the quote.id for subsequent payment submission\n").toList),
  (("- Monitor valid_until timestamp for quote expiration\n").toList),
  (("- Handle rate limiting with exponential backoff\n").toList),
  (if includeTypes then (("- Include full TypeScript interfaces matching OpenAPI schemas").toList) else [])]

/-- The quote handler\x27s `endpointInfo` string. -/
def quoteEndpointInfo (includeTypes : Bool) : List Char :=
  joinPieces (quoteInfoPieces includeTypes)

/-- The `endpointInfo` template literal of the `sendPaymentCode` handler,
split into its lines (each keeping its newline); the final entry is the
`includeTypes` conditional. -/
def paymentInfoPieces (includeTypes : Bool) : List (List Char) := [
  (("\n").toList),
  (("TESSER FX /payments ENDPOINT:\n").toList),
  (("This endpoint submits a payment using a previously obtained quote.\n").toList),
  (("\n").toList),
  (("KEY REQUIREMENTS FROM OPENAPI SPEC:\n").toList),
  (("- POST to /payments\n").toList),
  (("- Required: quote_id (from previous /quotes response)\n").toList),
  (("- Optional: client_payment_id for tracking\n").toList),
  (("- Returns EventEnvelope with payment event type and PaymentData\n").toList),
  (("- Event types: payment.created, payment.settled, payment.rejected\n").toList),
  (("\n").toList),
  (("AUTHENTICATION & HEADERS:\n").toList),
  (("- Bearer token authentication required\n").toList),
  (("- Optional Idempotency-Key header (max 255 bytes)\n").toList),
  (("- Content-Type: application/json\n").toList),
  (("\n").toList),
  (("ERROR RESPONSES:\n").toList),
  (("- 400: Validation errors (malformed request)\n").toList),
  (("- 401: Authentication failed\n").toList),
  (("- 409: Conflict (quote already used, idempotency key reused)\n").toList),
  (("- 422: Business logic errors (insufficient balance, expired quote)\n").toList),
  (("- 429: Rate limit exceeded (with Retry-After header)\n").toList),
  (("\n").toList),
  (("PAYMENT LIFECYCLE:\n").toList),
  (("1. payment.created - Payment initiated successfully\n").toList),
  (("2. payment.settled - Payment completed successfully  \n").toList),
  (("3. payment.rejected - Payment failed (check reason field)\n").toList),
  (("\n").toList),
  (("INTEGRATION NOTES:\n").toList),
  (("- Must use valid, unexpired quote_id from /quotes endpoint\n").toList),
  (("- Payment processing is asynchronous\n").toList),
  (("- Monitor change field for payment state transitions\n").toList),
  (("- Handle rejection reasons appropriately\n").toList),
  (if includeTypes then (("- Include full TypeScript interfaces matching OpenAPI schemas").toList) else [])]

/-- The payment handler\x27s `endpointInfo` string. -/
def paymentEndpointInfo (includeTypes : Bool) : List Char :=
  joinPieces (paymentInfoPieces includeTypes)

/-! ## Prompt assembly and code generation -/

/-- The five chained global-replace calls of `generateCode`, in source
order (endpoint, language display name, language extension, serialized
narrowed spec, endpoint guidance). -/
def assemblePrompt (template : List Char) (endpoint : String) (config : LangConfig)
    (specSer endpointInfo : List Char) : List Char :=
  replaceL (tokText .endpointSpecificInfo) endpointInfo
    (replaceL (tokText .openapiSpec) specSer
      (replaceL (tokText .languageExtension) config.extension.toList
        (replaceL (tokText .language) config.name.toList
          (replaceL (tokText .endpoint) endpoint.toList template))))

/-- The prompt `generateCode` sends to the collaborator; `none` models
the `throw` taken when the endpoint is missing from the description
(`if (!endpointPath) throw …`), before any collaborator call. -/
def generateCodePrompt (endpoint : String) (language : SupportedLanguage)
    (endpointInfo : List Char) : Option (List Char) :=
  let template := getPromptTemplate
  let config := LANGUAGE_CONFIG language
  let openApiSpec := getOpenAPISpec
  match truthyOpt (jsGetOpt (jsGet openApiSpec ("paths")) endpoint) with
  | none => none
  | some endpointPath =>
    some (assemblePrompt template endpoint config
      (stringify 0 (relevantSpec openApiSpec endpoint endpointPath)) endpointInfo)

/-- A content block of the collaborator\x27s response. -/
inductive ContentBlock where
  | text (t : List Char)
  | other

/-- Outcome of the collaborator call (`anthropic.messages.create`):
either a content list or a thrown error with its message. -/
inductive CollabOutcome where
  | ok (content : List ContentBlock)
  | threw (msg : List Char)

/-- `generateCode` from `server.ts`.  A missing endpoint throws before
the `try`; inside the `try`, an empty content list, a non-text first
block, or a collaborator exception are all rethrown wrapped in
`"Failed to generate code: …"`.  (The source\x27s `if (!content)` check
on the first element of a non-empty array is unreachable and has no
counterpart here.)  `Except.error` models a thrown exception
propagating to the caller. -/
def generateCode (collab : List Char → CollabOutcome) (endpoint : String)
    (language : SupportedLanguage) (endpointInfo : List Char) :
    Except (List Char) (List Char) :=
  match generateCodePrompt endpoint language endpointInfo with
  | none => .error (("Endpoint ").toList ++ endpoint.toList ++
      (" not found in OpenAPI specification").toList)
  | some prompt =>
    match collab prompt with
    | .threw m => .error (("Failed to generate code: ").toList ++ m)
    | .ok [] => .error (("Failed to generate code: ").toList ++
        ("No content in response from Claude").toList)
    | .ok (.text t :: _) => .ok t
    | .ok (.other :: _) => .error (("Failed to generate code: ").toList ++
        ("Unexpected response format from Claude").toList)

/-! ## Tool handlers -/

/-- A text content block of a tool result. -/
inductive OutBlock where
  | text (t : List Char)

/-- A tool result: a content list (every result the server builds is a
single text block, with no error flag). -/
structure ToolResult where
  content : List OutBlock

/-- The success wrapper of `getQuoteCode`. -/
def quoteSuccessText (language : SupportedLanguage) (generatedCode : List Char) : List Char :=
  (("# Tesser FX Quote Integration (").toList) ++ (LANGUAGE_CONFIG language).name.toList ++
    ((")\n\n").toList) ++ generatedCode ++ (("\n\n## Integration Notes:\n- This code follows the official Tesser FX OpenAPI specification\n- Replace \x27your-api-key-here\x27 with your actual Tesser API key\n- The quote_id from the response must be used for payment submission\n- Quotes have limited validity - check valid_until timestamp\n- Implement proper retry logic for 429 (rate limit) responses").toList)

/-- The success wrapper of `sendPaymentCode`. -/
def paymentSuccessText (language : SupportedLanguage) (generatedCode : List Char) : List Char :=
  (("# Tesser FX Payment Integration (").toList) ++ (LANGUAGE_CONFIG language).name.toList ++
    ((")\n\n").toList) ++ generatedCode ++ (("\n\n## Integration Notes:\n- This code follows the official Tesser FX OpenAPI specification\n- Replace \x27your-api-key-here\x27 with your actual Tesser API key\n- The quote_id must be from a recent, valid /quotes response\n- Payment processing is asynchronous - monitor status changes\n- Implement proper error handling for all payment states\n- Handle 422 errors (business logic failures) gracefully").toList)

/-- The `getQuoteCode` tool handler: build the quote guidance, call
`generateCode` for `"/quotes"`, wrap success; on any thrown error
return a normal result whose single text block is
`"Error generating code: …"`. -/
def getQuoteCode (collab : List Char → CollabOutcome) (language : SupportedLanguage)
    (includeTypes : Bool) : ToolResult :=
  let endpointInfo := quoteEndpointInfo includeTypes
  match generateCode collab ("/quotes") language endpointInfo with
  | .ok generatedCode => ⟨[.text (quoteSuccessText language generatedCode)]⟩
  | .error e => ⟨[.text (("Error generating code: ").toList ++ e)]⟩

/-- The `sendPaymentCode` tool handler, symmetric to `getQuoteCode`. -/
def sendPaymentCode (collab : List Char → CollabOutcome) (language : SupportedLanguage)
    (includeTypes : Bool) : ToolResult :=
  let endpointInfo := paymentEndpointInfo includeTypes
  match generateCode collab ("/payments") language endpointInfo with
  | .ok generatedCode => ⟨[.text (paymentSuccessText language generatedCode)]⟩
  | .error e => ⟨[.text (("Error generating code: ").toList ++ e)]⟩

/-! ## Tool boundary validation -/

/-- The `z.enum` language values declared in both tool schemas. -/
def languageEnumValues : List String :=
  [("typescript"), ("javascript"), ("python"), ("go"), ("rust"), ("cpp")]

/-- Parse a language argument against the closed enumeration. -/
def parseLanguage (s : String) : Option SupportedLanguage :=
  if s = "typescript" then some .typescript
  else if s = "javascript" then some .javascript
  else if s = "python" then some .python
  else if s = "go" then some .go
  else if s = "rust" then some .rust
  else if s = "cpp" then some .cpp
  else none

/-- Outcome of a tool call at the protocol boundary. -/
inductive ToolCallOutcome where
  | invalidArguments
  | completed (r : ToolResult)

/-- Modelled from the spec: the tool host (the MCP adapter library, not
part of this repository\x27s sources) validates the call arguments
against the declared `z.enum` schema and rejects the call before the
handler — and hence before any collaborator call — runs. -/
def dispatchGetQuoteCode (collab : List Char → CollabOutcome) (languageArg : String)
    (includeTypes : Bool) : ToolCallOutcome :=
  match parseLanguage languageArg with
  | none => .invalidArguments
  | some language => .completed (getQuoteCode collab language includeTypes)

/-- Modelled from the spec: boundary validation for `sendPaymentCode`,
identical to `dispatchGetQuoteCode`. -/
def dispatchSendPaymentCode (collab : List Char → CollabOutcome) (languageArg : String)
    (includeTypes : Bool) : ToolCallOutcome :=
  match parseLanguage languageArg with
  | none => .invalidArguments
  | some language => .completed (sendPaymentCode collab language includeTypes)


/-! ## Global replacement over a segmented text -/

/-- Conditions under which the global replacement of `tokText t0` acts
segment-by-segment: a literal piece contains no adjacent brace pair
and does not end in an open brace (so no token occurrence starts in it
or at its boundary), and any other token\x27s text differs from the
scanned token within their common length and is brace-pair free after
its head. -/
def SegOK (t0 : Tok) : Seg → Prop
  | .lit p => hasBB p = false ∧ endsLB p = false
  | .tok t => t = t0 ∨
      (mismatchWithin (tokText t0) (tokText t) = true ∧
        hasBB (tokText t).tail = false ∧ endsLB (tokText t) = false)

/-- Substitute every `t0` token segment by a literal replacement. -/
def substSeg (t0 : Tok) (rep : List Char) : List Seg → List Seg
  | [] => []
  | .lit p :: rest => .lit p :: substSeg t0 rep rest
  | .tok t :: rest => (if t = t0 then .lit rep else .tok t) :: substSeg t0 rep rest

/-- Global replacement of a placeholder over a segmented text is
exactly the segment-wise substitution. -/
theorem replace_render (t0 : Tok) (ts rep : List Char)
    (htok : tokText t0 = '{' :: '{' :: ts)
    (segs : List Seg) (h : ∀ s ∈ segs, SegOK t0 s) :
    replaceL (tokText t0) rep (render segs) = render (substSeg t0 rep segs) := by
  induction segs with
  | nil => rfl
  | cons s rest ih =>
    have hrest := fun s' hs' => h s' (List.mem_cons_of_mem s hs')
    have ih' := ih hrest
    cases s with
    | lit p =>
      obtain ⟨h1, h2⟩ := h (.lit p) (List.mem_cons_self _ _)
      show replaceAux (tokText t0) rep 0 (p ++ render rest) = p ++ render (substSeg t0 rep rest)
      rw [htok, replaceAux_passthrough ts rep p (render rest) h1 h2]
      rw [htok] at ih'
      have ih2 : replaceAux ('{' :: '{' :: ts) rep 0 (render rest) =
        render (substSeg t0 rep rest) := ih'
      rw [ih2]
    | tok t =>
      by_cases heq : t = t0
      · subst heq
        show replaceAux (tokText t) rep 0 (tokText t ++ render rest) =
          render ((if t = t then Seg.lit rep else Seg.tok t) :: substSeg t rep rest)
        rw [if_pos rfl]
        show replaceAux (tokText t) rep 0 (tokText t ++ render rest) =
          rep ++ render (substSeg t rep rest)
        rw [htok, replaceAux_match]
        rw [htok] at ih'
        have ih2 : replaceAux ('{' :: '{' :: ts) rep 0 (render rest) =
          render (substSeg t rep rest) := ih'
        rw [ih2]
      · rcases h (.tok t) (List.mem_cons_self _ _) with hcontra | ⟨hm, ht, he⟩
        · exact absurd hcontra heq
        · show replaceAux (tokText t0) rep 0 (tokText t ++ render rest) =
            render ((if t = t0 then Seg.lit rep else Seg.tok t) :: substSeg t0 rep rest)
          rw [if_neg heq]
          show replaceAux (tokText t0) rep 0 (tokText t ++ render rest) =
            tokText t ++ render (substSeg t0 rep rest)
          have hqne : tokText t ≠ [] := by
            intro hnil
            rw [hnil] at hm
            simp [mismatchWithin] at hm
          rw [htok] at hm ⊢
          rw [replaceAux_other_token ts rep (render rest) (tokText t) hqne hm ht he]
          rw [htok] at ih'
          have ih2 : replaceAux ('{' :: '{' :: ts) rep 0 (render rest) =
            render (substSeg t0 rep rest) := ih'
          rw [ih2]

/-! ## Scanning the rendered result -/

theorem endsLB_append (xs ys : List Char) :
    endsLB (xs ++ ys) = (if ys = [] then endsLB xs else endsLB ys) := by
  induction xs with
  | nil =>
    cases ys with
    | nil => rfl
    | cons y ys' => simp
  | cons c cs ih =>
    by_cases hy : ys = []
    · subst hy
      simp
    · rw [if_neg hy] at ih
      have hne : cs ++ ys ≠ [] := by
        intro hnil
        rcases List.append_eq_nil.mp hnil with ⟨-, h2⟩
        exact hy h2
      rw [if_neg hy]
      calc endsLB ((c :: cs) ++ ys) = endsLB (cs ++ ys) := by
            rw [List.cons_append]
            cases hcs : cs ++ ys with
            | nil => exact absurd hcs hne
            | cons d ds => rfl
        _ = endsLB ys := ih

/-- A segment list of literal pieces that are brace-pair free and do
not end in an open brace renders to a brace-pair free text that does
not end in an open brace. -/
theorem render_scan_ok (segs : List Seg)
    (h : ∀ s ∈ segs, match s with
      | .lit p => hasBB p = false ∧ endsLB p = false
      | .tok _ => False) :
    hasBB (render segs) = false ∧ endsLB (render segs) = false := by
  induction segs with
  | nil => exact ⟨rfl, rfl⟩
  | cons s rest ih =>
    have ih' := ih fun s' hs' => h s' (List.mem_cons_of_mem s hs')
    cases s with
    | tok t => exact absurd (h (.tok t) (List.mem_cons_self _ _)) not_false
    | lit p =>
      obtain ⟨h1, h2⟩ := h (.lit p) (List.mem_cons_self _ _)
      constructor
      · exact hasBB_append_false h1 ih'.1 (Or.inl h2)
      · show endsLB (p ++ render rest) = false
        rw [endsLB_append]
        by_cases hr : render rest = []
        · rw [if_pos hr]; exact h2
        · rw [if_neg hr]; exact ih'.2

/-- Joining pieces that are individually brace-pair free and do not
end in an open brace. -/
theorem joinPieces_scan_ok (ps : List (List Char))
    (h : (ps.all fun p => !hasBB p && !endsLB p) = true) :
    hasBB (joinPieces ps) = false ∧ endsLB (joinPieces ps) = false := by
  induction ps with
  | nil => exact ⟨rfl, rfl⟩
  | cons p rest ih =>
    simp only [List.all_cons, Bool.and_eq_true, Bool.not_eq_true'] at h
    obtain ⟨⟨h1, h2⟩, h3⟩ := h
    have ih' := ih h3
    constructor
    · exact hasBB_append_false h1 ih'.1 (Or.inl h2)
    · show endsLB (p ++ joinPieces rest) = false
      rw [endsLB_append]
      by_cases hr : joinPieces rest = []
      · rw [if_pos hr]; exact h2
      · rw [if_neg hr]; exact ih'.2

theorem containsL_join_piece (pat p : List Char) (ps : List (List Char))
    (hmem : p ∈ ps) (hpat : pat ≠ []) (h : containsL pat p = true) :
    containsL pat (joinPieces ps) = true := by
  induction ps with
  | nil => exact absurd hmem (List.not_mem_nil p)
  | cons q rest ih =>
    rcases List.mem_cons.mp hmem with rfl | hmem'
    · exact containsL_append_left pat p (joinPieces rest) hpat h
    · exact containsL_append_right pat q (joinPieces rest) (ih hmem')

theorem containsL_render_lit (pat p : List Char) (segs : List Seg)
    (hmem : Seg.lit p ∈ segs) (hpat : pat ≠ []) (h : containsL pat p = true) :
    containsL pat (render segs) = true := by
  induction segs with
  | nil => exact absurd hmem (List.not_mem_nil _)
  | cons s rest ih =>
    rcases List.mem_cons.mp hmem with rfl | hmem'
    · exact containsL_append_left pat p (render rest) hpat h
    · cases s with
      | lit q => exact containsL_append_right pat q (render rest) (ih hmem')
      | tok t => exact containsL_append_right pat (tokText t) (render rest) (ih hmem')


/-! ## The serialized narrowed spec is brace-pair free -/

theorem hasBB_cons_ne {c : Char} (rest : List Char) (h : (c == '{') = false) :
    hasBB (c :: rest) = hasBB rest := by
  cases rest with
  | nil => rfl
  | cons c2 cs => simp [hasBB, h]

theorem endsLB_cons_ne_nil {c : Char} {cs : List Char} (h : cs ≠ []) :
    endsLB (c :: cs) = endsLB cs := by
  cases cs with
  | nil => exact absurd rfl h
  | cons c2 cs' => rfl

theorem noLB_append_iff (xs ys : List Char) :
    noLB (xs ++ ys) = (noLB xs && noLB ys) := by
  induction xs with
  | nil => simp [noLB]
  | cons c cs ih => simp [noLB, ih, Bool.and_assoc]

theorem hasBB_false_of_noLB {s : List Char} (h : noLB s = true) :
    hasBB s = false := by
  induction s with
  | nil => rfl
  | cons c cs ih =>
    rw [hasBB_cons_ne cs (noLB_head h)]
    exact ih (noLB_tail h)

theorem endsLB_false_of_noLB {s : List Char} (h : noLB s = true) :
    endsLB s = false := by
  induction s with
  | nil => rfl
  | cons c cs ih =>
    cases cs with
    | nil =>
      show (c == '{') = false
      exact noLB_head h
    | cons c2 cs' =>
      rw [endsLB_cons_ne_nil (by simp)]
      exact ih (noLB_tail h)

theorem noLB_replicate_space (n : Nat) : noLB (List.replicate n ' ') = true := by
  induction n with
  | zero => rfl
  | succ m ih =>
    rw [List.replicate_succ]
    simpa [noLB] using ih

theorem noLB_spaces (lvl : Nat) : noLB (spaces lvl) = true :=
  noLB_replicate_space (2 * lvl)

theorem bandElim {a b : Bool} (h : (a && b) = true) : a = true ∧ b = true := by
  simp only [Bool.and_eq_true] at h
  exact h

theorem bnotElim {a : Bool} (h : (!a) = true) : a = false := by
  cases a with
  | false => rfl
  | true => simp at h

theorem digitChar_ne_lb (n : Nat) : (digitChar n == '{') = false := by
  unfold digitChar
  split <;> decide

theorem noLB_natDigits (fuel n : Nat) : noLB (natDigits fuel n) = true := by
  induction fuel generalizing n with
  | zero => rfl
  | succ f ih =>
    show noLB (if n < 10 then [digitChar n] else
      natDigits f (n / 10) ++ [digitChar (n % 10)]) = true
    split_ifs
    · simp only [noLB, Bool.and_true]
      simpa using digitChar_ne_lb n
    · rw [noLB_append_iff, ih]
      simp only [noLB, Bool.and_true, Bool.true_and]
      simpa using digitChar_ne_lb (n % 10)

theorem noLB_intDigits (n : Int) : noLB (intDigits n) = true := by
  unfold intDigits
  split_ifs
  · show noLB ('-' :: natDigits 12 n.natAbs) = true
    simp only [noLB, Bool.and_eq_true, bne_iff_ne]
    exact ⟨by decide, noLB_natDigits 12 n.natAbs⟩
  · exact noLB_natDigits 12 n.natAbs

theorem jsonQuote_hasBB {s : String} (h : hasBB (escapeChars s.toList) = false) :
    hasBB (jsonQuote s) = false := by
  show hasBB ('"' :: (escapeChars s.toList ++ ['"'])) = false
  rw [hasBB_cons_ne _ (by decide)]
  exact hasBB_append_false h (by decide)
    (Or.inr (by intro c cs hcc; cases hcc; decide))

theorem jsonQuote_endsLB (s : String) : endsLB (jsonQuote s) = false := by
  show endsLB ('"' :: (escapeChars s.toList ++ ['"'])) = false
  rw [endsLB_cons_ne_nil (by simp), endsLB_append]
  rw [if_neg (by simp)]
  decide

mutual
/-- The per-string side condition for scanning serialized JSON: every
string in the value (keys and string values alike) is brace-pair free
after JSON escaping. -/
def jsonStringsOK : Json → Bool
  | .str s => !hasBB (escapeChars s.toList)
  | .arr a => jsonStringsOKArr a
  | .obj o => jsonStringsOKObj o
  | _ => true
def jsonStringsOKArr : JArr → Bool
  | .nil => true
  | .cons j tl => jsonStringsOK j && jsonStringsOKArr tl
def jsonStringsOKObj : JObj → Bool
  | .nil => true
  | .cons k v tl =>
    !hasBB (escapeChars k.toList) && jsonStringsOK v && jsonStringsOKObj tl
end

mutual
/-- Serialized JSON whose strings satisfy `jsonStringsOK` is brace-pair
free and does not end in an open brace: a structural open brace is
always followed by a newline or a closing brace, so an adjacent pair
could only come from a single escaped string. -/
theorem stringify_scan : ∀ (lvl : Nat) (j : Json), jsonStringsOK j = true →
    hasBB (stringify lvl j) = false ∧ endsLB (stringify lvl j) = false
  | _lvl, .null, _ => ⟨rfl, rfl⟩
  | _lvl, .bool true, _ => ⟨rfl, rfl⟩
  | _lvl, .bool false, _ => ⟨rfl, rfl⟩
  | _lvl, .num n, _ =>
    ⟨hasBB_false_of_noLB (noLB_intDigits n), endsLB_false_of_noLB (noLB_intDigits n)⟩
  | _lvl, .str s, h => by
    have h' : hasBB (escapeChars s.toList) = false := bnotElim h
    exact ⟨jsonQuote_hasBB h', jsonQuote_endsLB s⟩
  | _lvl, .arr .nil, _ => ⟨rfl, rfl⟩
  | lvl, .arr (.cons j tl), h => by
    have hi := stringifyItems_scan (lvl + 1) (.cons j tl) h
    have hclose : hasBB ('\n' :: (spaces lvl ++ [']'])) = false := by
      rw [hasBB_cons_ne _ (by decide), noLB_hasBB_append _ (noLB_spaces lvl)]
      decide
    have hcloseEnd : endsLB ('\n' :: (spaces lvl ++ [']'])) = false := by
      rw [endsLB_cons_ne_nil (by simp), endsLB_append, if_neg (by simp)]
      decide
    constructor
    · simp only [stringify]
      rw [hasBB_cons_ne _ (by decide), hasBB_cons_ne _ (by decide)]
      exact hasBB_append_false hi.1 hclose (Or.inl hi.2)
    · simp only [stringify]
      rw [endsLB_cons_ne_nil (by simp), endsLB_cons_ne_nil (by simp),
        endsLB_append, if_neg (by simp)]
      exact hcloseEnd
  | _lvl, .obj .nil, _ => ⟨rfl, rfl⟩
  | lvl, .obj (.cons k v tl), h => by
    have hi := stringifyEntries_scan (lvl + 1) (.cons k v tl) h
    have hclose : hasBB ('\n' :: (spaces lvl ++ ['\x7d'])) = false := by
      rw [hasBB_cons_ne _ (by decide), noLB_hasBB_append _ (noLB_spaces lvl)]
      decide
    have hcloseEnd : endsLB ('\n' :: (spaces lvl ++ ['\x7d'])) = false := by
      rw [endsLB_cons_ne_nil (by simp), endsLB_append, if_neg (by simp)]
      decide
    constructor
    · simp only [stringify]
      rw [show ∀ rest, hasBB ('\x7b' :: '\n' :: rest) = hasBB ('\n' :: rest) from
        fun rest => by simp [hasBB]]
      rw [hasBB_cons_ne _ (by decide)]
      exact hasBB_append_false hi.1 hclose (Or.inl hi.2)
    · simp only [stringify]
      rw [endsLB_cons_ne_nil (by simp), endsLB_cons_ne_nil (by simp),
        endsLB_append, if_neg (by simp)]
      exact hcloseEnd

theorem stringifyItems_scan : ∀ (lvl : Nat) (a : JArr), jsonStringsOKArr a = true →
    hasBB (stringifyItems lvl a) = false ∧ endsLB (stringifyItems lvl a) = false
  | _lvl, .nil, _ => ⟨rfl, rfl⟩
  | lvl, .cons j .nil, h => by
    have hj := stringify_scan lvl j (bandElim h).1
    constructor
    · simp only [stringifyItems]
      rw [noLB_hasBB_append _ (noLB_spaces lvl)]
      exact hj.1
    · simp only [stringifyItems]
      rw [endsLB_append]
      by_cases hs : stringify lvl j = []
      · rw [if_pos hs]; exact endsLB_false_of_noLB (noLB_spaces lvl)
      · rw [if_neg hs]; exact hj.2
  | lvl, .cons j (.cons j2 tl), h => by
    have h1 : jsonStringsOK j = true := (bandElim h).1
    have h2 : jsonStringsOKArr (.cons j2 tl) = true := (bandElim h).2
    have hj := stringify_scan lvl j h1
    have hrest := stringifyItems_scan lvl (.cons j2 tl) h2
    have hsep : hasBB (',' :: '\n' :: stringifyItems lvl (.cons j2 tl)) = false := by
      rw [hasBB_cons_ne _ (by decide), hasBB_cons_ne _ (by decide)]
      exact hrest.1
    have hsepEnd : endsLB (',' :: '\n' :: stringifyItems lvl (.cons j2 tl)) = false := by
      rw [endsLB_cons_ne_nil (by simp)]
      cases hr : stringifyItems lvl (.cons j2 tl) with
      | nil => decide
      | cons c cs =>
        rw [endsLB_cons_ne_nil (by simp)]
        rw [hr] at hrest
        exact hrest.2
    constructor
    · simp only [stringifyItems, List.append_assoc]
      rw [noLB_hasBB_append _ (noLB_spaces lvl)]
      exact hasBB_append_false hj.1 hsep (Or.inl hj.2)
    · simp only [stringifyItems, List.append_assoc]
      rw [endsLB_append, if_neg (by simp), endsLB_append, if_neg (by simp)]
      exact hsepEnd

theorem stringifyEntries_scan : ∀ (lvl : Nat) (o : JObj), jsonStringsOKObj o = true →
    hasBB (stringifyEntries lvl o) = false ∧ endsLB (stringifyEntries lvl o) = false
  | _lvl, .nil, _ => ⟨rfl, rfl⟩
  | lvl, .cons k v .nil, h => by
    have hk : hasBB (escapeChars k.toList) = false :=
      bnotElim (bandElim (bandElim h).1).1
    have hv := stringify_scan lvl v (bandElim (bandElim h).1).2
    have hmid : hasBB (':' :: ' ' :: stringify lvl v) = false := by
      rw [hasBB_cons_ne _ (by decide), hasBB_cons_ne _ (by decide)]
      exact hv.1
    have hmidEnd : endsLB (':' :: ' ' :: stringify lvl v) = false := by
      rw [endsLB_cons_ne_nil (by simp)]
      cases hr : stringify lvl v with
      | nil => decide
      | cons c cs =>
        rw [endsLB_cons_ne_nil (by simp)]
        rw [hr] at hv
        exact hv.2
    constructor
    · simp only [stringifyEntries, List.append_assoc]
      rw [noLB_hasBB_append _ (noLB_spaces lvl)]
      exact hasBB_append_false (jsonQuote_hasBB hk) hmid (Or.inl (jsonQuote_endsLB k))
    · simp only [stringifyEntries, List.append_assoc]
      rw [endsLB_append, if_neg (by simp), endsLB_append, if_neg (by simp)]
      exact hmidEnd
  | lvl, .cons k v (.cons k2 v2 tl), h => by
    have hk : hasBB (escapeChars k.toList) = false :=
      bnotElim (bandElim (bandElim h).1).1
    have hv := stringify_scan lvl v (bandElim (bandElim h).1).2
    have hrest := stringifyEntries_scan lvl (.cons k2 v2 tl) (bandElim h).2
    have hsep : hasBB (',' :: '\n' :: stringifyEntries lvl (.cons k2 v2 tl)) = false := by
      rw [hasBB_cons_ne _ (by decide), hasBB_cons_ne _ (by decide)]
      exact hrest.1
    have hsepEnd : endsLB (',' :: '\n' :: stringifyEntries lvl (.cons k2 v2 tl)) = false := by
      rw [endsLB_cons_ne_nil (by simp)]
      cases hr : stringifyEntries lvl (.cons k2 v2 tl) with
      | nil => decide
      | cons c cs =>
        rw [endsLB_cons_ne_nil (by simp)]
        rw [hr] at hrest
        exact hrest.2
    have hmid : hasBB (':' :: ' ' :: (stringify lvl v ++
        ',' :: '\n' :: stringifyEntries lvl (.cons k2 v2 tl))) = false := by
      rw [hasBB_cons_ne _ (by decide), hasBB_cons_ne _ (by decide)]
      exact hasBB_append_false hv.1 hsep (Or.inl hv.2)
    have hmidEnd : endsLB (':' :: ' ' :: (stringify lvl v ++
        ',' :: '\n' :: stringifyEntries lvl (.cons k2 v2 tl))) = false := by
      rw [endsLB_cons_ne_nil (by simp), endsLB_cons_ne_nil (by simp),
        endsLB_append, if_neg (by simp)]
      exact hsepEnd
    constructor
    · simp only [stringifyEntries, List.append_assoc, List.cons_append]
      rw [noLB_hasBB_append _ (noLB_spaces lvl)]
      exact hasBB_append_false (jsonQuote_hasBB hk) hmid (Or.inl (jsonQuote_endsLB k))
    · simp only [stringifyEntries, List.append_assoc, List.cons_append]
      rw [endsLB_append, if_neg (by simp), endsLB_append, if_neg (by simp)]
      exact hmidEnd
end


/-! ## The staged substitution of the template -/

/-- The template after substituting `ENDPOINT`. -/
def segs1 (e : List Char) : List Seg := [
  .lit (("You are an expert software engineer generating a CLIENT LIBRARY for the ").toList),
  .lit e,
  .lit ((" endpoint of the Tesser FX API.\n\nCRITICAL INSTRUCTIONS:\n- Generate ONLY a client function or class for calling ").toList),
  .lit e,
  .lit (("\n- DO NOT generate any HTTP server code\n- DO NOT generate any demo endpoints (/demo, /, /quote, etc.)\n- DO NOT generate any server routes or handlers  \n- DO NOT generate any Bun.serve() or Express server code\n- DO NOT generate any console.log statements about \"running on port\"\n- The code must compile without any TypeScript errors\n- Focus ONLY on the client-side API call for ").toList),
  .lit e,
  .lit (("\n\nTESSER FX API DETAILS:\n- Base URL: https://api.tesser.com/v1\n- Authentication: Bearer token in Authorization header\n- Content-Type: application/json\n\nTARGET ENDPOINT: ").toList),
  .lit e,
  .lit (("\n").toList),
  .tok .openapiSpec,
  .lit (("\n\nSPECIFIC REQUIREMENTS FOR ").toList),
  .lit e,
  .lit ((":\n").toList),
  .tok .endpointSpecificInfo,
  .lit (("\n\nOUTPUT REQUIREMENTS:\n1. Generate a client function or class for ").toList),
  .lit e,
  .lit ((" in ").toList),
  .tok .language,
  .lit (("\n2. Include proper TypeScript types (if ").toList),
  .tok .language,
  .lit ((" supports them) matching the OpenAPI schemas EXACTLY\n3. Handle authentication via Bearer token\n4. Support optional Idempotency-Key header\n5. Handle all documented HTTP response codes for ").toList),
  .lit e,
  .lit (("\n6. Include proper error handling\n7. Validate input parameters according to the schema\n8. Return the exact response type from the OpenAPI spec\n9. Include a simple usage example of the client function/class\n10. Code must be production-ready and compile without errors\n11. NO server code, NO demo endpoints, NO HTTP handlers\n\nRESPONSE FORMAT - CLIENT CODE ONLY:\n\x27\x27\x27").toList),
  .tok .languageExtension,
  .lit (("\n// Client code for ").toList),
  .lit e,
  .lit ((" endpoint only\n\x27\x27\x27\n\nGenerate ONLY the client library code for integrating with ").toList),
  .lit e,
  .lit ((". Do not include any server implementation.").toList)]

/-- The template after substituting `ENDPOINT`, `LANGUAGE`. -/
def segs2 (e n : List Char) : List Seg := [
  .lit (("You are an expert software engineer generating a CLIENT LIBRARY for the ").toList),
  .lit e,
  .lit ((" endpoint of the Tesser FX API.\n\nCRITICAL INSTRUCTIONS:\n- Generate ONLY a client function or class for calling ").toList),
  .lit e,
  .lit (("\n- DO NOT generate any HTTP server code\n- DO NOT generate any demo endpoints (/demo, /, /quote, etc.)\n- DO NOT generate any server routes or handlers  \n- DO NOT generate any Bun.serve() or Express server code\n- DO NOT generate any console.log statements about \"running on port\"\n- The code must compile without any TypeScript errors\n- Focus ONLY on the client-side API call for ").toList),
  .lit e,
  .lit (("\n\nTESSER FX API DETAILS:\n- Base URL: https://api.tesser.com/v1\n- Authentication: Bearer token in Authorization header\n- Content-Type: application/json\n\nTARGET ENDPOINT: ").toList),
  .lit e,
  .lit (("\n").toList),
  .tok .openapiSpec,
  .lit (("\n\nSPECIFIC REQUIREMENTS FOR ").toList),
  .lit e,
  .lit ((":\n").toList),
  .tok .endpointSpecificInfo,
  .lit (("\n\nOUTPUT REQUIREMENTS:\n1. Generate a client function or class for ").toList),
  .lit e,
  .lit ((" in ").toList),
  .lit n,
  .lit (("\n2. Include proper TypeScript types (if ").toList),
  .lit n,
  .lit ((" supports them) matching the OpenAPI schemas EXACTLY\n3. Handle authentication via Bearer token\n4. Support optional Idempotency-Key header\n5. Handle all documented HTTP response codes for ").toList),
  .lit e,
  .lit (("\n6. Include proper error handling\n7. Validate input parameters according to the schema\n8. Return the exact response type from the OpenAPI spec\n9. Include a simple usage example of the client function/class\n10. Code must be production-ready and compile without errors\n11. NO server code, NO demo endpoints, NO HTTP handlers\n\nRESPONSE FORMAT - CLIENT CODE ONLY:\n\x27\x27\x27").toList),
  .tok .languageExtension,
  .lit (("\n// Client code for ").toList),
  .lit e,
  .lit ((" endpoint only\n\x27\x27\x27\n\nGenerate ONLY the client library code for integrating with ").toList),
  .lit e,
  .lit ((". Do not include any server implementation.").toList)]

/-- The template after substituting `ENDPOINT`, `LANGUAGE`, `LANGUAGE_EXTENSION`. -/
def segs3 (e n x : List Char) : List Seg := [
  .lit (("You are an expert software engineer generating a CLIENT LIBRARY for the ").toList),
  .lit e,
  .lit ((" endpoint of the Tesser FX API.\n\nCRITICAL INSTRUCTIONS:\n- Generate ONLY a client function or class for calling ").toList),
  .lit e,
  .lit (("\n- DO NOT generate any HTTP server code\n- DO NOT generate any demo endpoints (/demo, /, /quote, etc.)\n- DO NOT generate any server routes or handlers  \n- DO NOT generate any Bun.serve() or Express server code\n- DO NOT generate any console.log statements about \"running on port\"\n- The code must compile without any TypeScript errors\n- Focus ONLY on the client-side API call for ").toList),
  .lit e,
  .lit (("\n\nTESSER FX API DETAILS:\n- Base URL: https://api.tesser.com/v1\n- Authentication: Bearer token in Authorization header\n- Content-Type: application/json\n\nTARGET ENDPOINT: ").toList),
  .lit e,
  .lit (("\n").toList),
  .tok .openapiSpec,
  .lit (("\n\nSPECIFIC REQUIREMENTS FOR ").toList),
  .lit e,
  .lit ((":\n").toList),
  .tok .endpointSpecificInfo,
  .lit (("\n\nOUTPUT REQUIREMENTS:\n1. Generate a client function or class for ").toList),
  .lit e,
  .lit ((" in ").toList),
  .lit n,
  .lit (("\n2. Include proper TypeScript types (if ").toList),
  .lit n,
  .lit ((" supports them) matching the OpenAPI schemas EXACTLY\n3. Handle authentication via Bearer token\n4. Support optional Idempotency-Key header\n5. Handle all documented HTTP response codes for ").toList),
  .lit e,
  .lit (("\n6. Include proper error handling\n7. Validate input parameters according to the schema\n8. Return the exact response type from the OpenAPI spec\n9. Include a simple usage example of the client function/class\n10. Code must be production-ready and compile without errors\n11. NO server code, NO demo endpoints, NO HTTP handlers\n\nRESPONSE FORMAT - CLIENT CODE ONLY:\n\x27\x27\x27").toList),
  .lit x,
  .lit (("\n// Client code for ").toList),
  .lit e,
  .lit ((" endpoint only\n\x27\x27\x27\n\nGenerate ONLY the client library code for integrating with ").toList),
  .lit e,
  .lit ((". Do not include any server implementation.").toList)]

/-- The template after substituting `ENDPOINT`, `LANGUAGE`, `LANGUAGE_EXTENSION`, `OPENAPI_SPEC`. -/
def segs4 (e n x sp : List Char) : List Seg := [
  .lit (("You are an expert software engineer generating a CLIENT LIBRARY for the ").toList),
  .lit e,
  .lit ((" endpoint of the Tesser FX API.\n\nCRITICAL INSTRUCTIONS:\n- Generate ONLY a client function or class for calling ").toList),
  .lit e,
  .lit (("\n- DO NOT generate any HTTP server code\n- DO NOT generate any demo endpoints (/demo, /, /quote, etc.)\n- DO NOT generate any server routes or handlers  \n- DO NOT generate any Bun.serve() or Express server code\n- DO NOT generate any console.log statements about \"running on port\"\n- The code must compile without any TypeScript errors\n- Focus ONLY on the client-side API call for ").toList),
  .lit e,
  .lit (("\n\nTESSER FX API DETAILS:\n- Base URL: https://api.tesser.com/v1\n- Authentication: Bearer token in Authorization header\n- Content-Type: application/json\n\nTARGET ENDPOINT: ").toList),
  .lit e,
  .lit (("\n").toList),
  .lit sp,
  .lit (("\n\nSPECIFIC REQUIREMENTS FOR ").toList),
  .lit e,
  .lit ((":\n").toList),
  .tok .endpointSpecificInfo,
  .lit (("\n\nOUTPUT REQUIREMENTS:\n1. Generate a client function or class for ").toList),
  .lit e,
  .lit ((" in ").toList),
  .lit n,
  .lit (("\n2. Include proper TypeScript types (if ").toList),
  .lit n,
  .lit ((" supports them) matching the OpenAPI schemas EXACTLY\n3. Handle authentication via Bearer token\n4. Support optional Idempotency-Key header\n5. Handle all documented HTTP response codes for ").toList),
  .lit e,
  .lit (("\n6. Include proper error handling\n7. Validate input parameters according to the schema\n8. Return the exact response type from the OpenAPI spec\n9. Include a simple usage example of the client function/class\n10. Code must be production-ready and compile without errors\n11. NO server code, NO demo endpoints, NO HTTP handlers\n\nRESPONSE FORMAT - CLIENT CODE ONLY:\n\x27\x27\x27").toList),
  .lit x,
  .lit (("\n// Client code for ").toList),
  .lit e,
  .lit ((" endpoint only\n\x27\x27\x27\n\nGenerate ONLY the client library code for integrating with ").toList),
  .lit e,
  .lit ((". Do not include any server implementation.").toList)]

/-- The fully substituted prompt: every placeholder replaced by its value. -/
def finalSegs (e n x sp inf : List Char) : List Seg := [
  .lit (("You are an expert software engineer generating a CLIENT LIBRARY for the ").toList),
  .lit e,
  .lit ((" endpoint of the Tesser FX API.\n\nCRITICAL INSTRUCTIONS:\n- Generate ONLY a client function or class for calling ").toList),
  .lit e,
  .lit (("\n- DO NOT generate any HTTP server code\n- DO NOT generate any demo endpoints (/demo, /, /quote, etc.)\n- DO NOT generate any server routes or handlers  \n- DO NOT generate any Bun.serve() or Express server code\n- DO NOT generate any console.log statements about \"running on port\"\n- The code must compile without any TypeScript errors\n- Focus ONLY on the client-side API call for ").toList),
  .lit e,
  .lit (("\n\nTESSER FX API DETAILS:\n- Base URL: https://api.tesser.com/v1\n- Authentication: Bearer token in Authorization header\n- Content-Type: application/json\n\nTARGET ENDPOINT: ").toList),
  .lit e,
  .lit (("\n").toList),
  .lit sp,
  .lit (("\n\nSPECIFIC REQUIREMENTS FOR ").toList),
  .lit e,
  .lit ((":\n").toList),
  .lit inf,
  .lit (("\n\nOUTPUT REQUIREMENTS:\n1. Generate a client function or class for ").toList),
  .lit e,
  .lit ((" in ").toList),
  .lit n,
  .lit (("\n2. Include proper TypeScript types (if ").toList),
  .lit n,
  .lit ((" supports them) matching the OpenAPI schemas EXACTLY\n3. Handle authentication via Bearer token\n4. Support optional Idempotency-Key header\n5. Handle all documented HTTP response codes for ").toList),
  .lit e,
  .lit (("\n6. Include proper error handling\n7. Validate input parameters according to the schema\n8. Return the exact response type from the OpenAPI spec\n9. Include a simple usage example of the client function/class\n10. Code must be production-ready and compile without errors\n11. NO server code, NO demo endpoints, NO HTTP handlers\n\nRESPONSE FORMAT - CLIENT CODE ONLY:\n\x27\x27\x27").toList),
  .lit x,
  .lit (("\n// Client code for ").toList),
  .lit e,
  .lit ((" endpoint only\n\x27\x27\x27\n\nGenerate ONLY the client library code for integrating with ").toList),
  .lit e,
  .lit ((". Do not include any server implementation.").toList)]

theorem substSeg_stage1 (e : List Char) :
    substSeg .endpoint e (templateSegs) = segs1 e := rfl

theorem substSeg_stage2 (e n : List Char) :
    substSeg .language n (segs1 e) = segs2 e n := rfl

theorem substSeg_stage3 (e n x : List Char) :
    substSeg .languageExtension x (segs2 e n) = segs3 e n x := rfl

theorem substSeg_stage4 (e n x sp : List Char) :
    substSeg .openapiSpec sp (segs3 e n x) = segs4 e n x sp := rfl

theorem substSeg_stage5 (e n x sp inf : List Char) :
    substSeg .endpointSpecificInfo inf (segs4 e n x sp) = finalSegs e n x sp inf := rfl

theorem segsOK0   :
    ∀ s ∈ templateSegs, SegOK .endpoint s := by
  intro s hs
  simp only [templateSegs, List.mem_cons, List.mem_singleton, List.mem_nil_iff, or_false] at hs
  rcases hs with rfl|rfl|rfl|rfl|rfl|rfl|rfl|rfl|rfl|rfl|rfl|rfl|rfl|rfl|rfl|rfl|rfl|rfl|rfl|rfl|rfl|rfl|rfl|rfl|rfl|rfl|rfl|rfl|rfl <;>
  first
    | exact ⟨he1, he2⟩
    | exact ⟨hn1, hn2⟩
    | exact ⟨hx1, hx2⟩
    | exact ⟨hsp1, hsp2⟩
    | exact Or.inl rfl
    | exact Or.inr ⟨by decide, by decide, by decide⟩
    | exact ⟨by decide, by decide⟩

theorem segsOK1 (e : List Char) (he1 : hasBB e = false) (he2 : endsLB e = false) :
    ∀ s ∈ segs1 e, SegOK .language s := by
  intro s hs
  simp only [segs1, List.mem_cons, List.mem_singleton, List.mem_nil_iff, or_false] at hs
  rcases hs with rfl|rfl|rfl|rfl|rfl|rfl|rfl|rfl|rfl|rfl|rfl|rfl|rfl|rfl|rfl|rfl|rfl|rfl|rfl|rfl|rfl|rfl|rfl|rfl|rfl|rfl|rfl|rfl|rfl <;>
  first
    | exact ⟨he1, he2⟩
    | exact ⟨hn1, hn2⟩
    | exact ⟨hx1, hx2⟩
    | exact ⟨hsp1, hsp2⟩
    | exact Or.inl rfl
    | exact Or.inr ⟨by decide, by decide, by decide⟩
    | exact ⟨by decide, by decide⟩

theorem segsOK2 (e : List Char) (n : List Char) (he1 : hasBB e = false) (he2 : endsLB e = false) (hn1 : hasBB n = false) (hn2 : endsLB n = false) :
    ∀ s ∈ segs2 e n, SegOK .languageExtension s := by
  intro s hs
  simp only [segs2, List.mem_cons, List.mem_singleton, List.mem_nil_iff, or_false] at hs
  rcases hs with rfl|rfl|rfl|rfl|rfl|rfl|rfl|rfl|rfl|rfl|rfl|rfl|rfl|rfl|rfl|rfl|rfl|rfl|rfl|rfl|rfl|rfl|rfl|rfl|rfl|rfl|rfl|rfl|rfl <;>
  first
    | exact ⟨he1, he2⟩
    | exact ⟨hn1, hn2⟩
    | exact ⟨hx1, hx2⟩
    | exact ⟨hsp1, hsp2⟩
    | exact Or.inl rfl
    | exact Or.inr ⟨by decide, by decide, by decide⟩
    | exact ⟨by decide, by decide⟩

theorem segsOK3 (e : List Char) (n : List Char) (x : List Char) (he1 : hasBB e = false) (he2 : endsLB e = false) (hn1 : hasBB n = false) (hn2 : endsLB n = false) (hx1 : hasBB x = false) (hx2 : endsLB x = false) :
    ∀ s ∈ segs3 e n x, SegOK .openapiSpec s := by
  intro s hs
  simp only [segs3, List.mem_cons, List.mem_singleton, List.mem_nil_iff, or_false] at hs
  rcases hs with rfl|rfl|rfl|rfl|rfl|rfl|rfl|rfl|rfl|rfl|rfl|rfl|rfl|rfl|rfl|rfl|rfl|rfl|rfl|rfl|rfl|rfl|rfl|rfl|rfl|rfl|rfl|rfl|rfl <;>
  first
    | exact ⟨he1, he2⟩
    | exact ⟨hn1, hn2⟩
    | exact ⟨hx1, hx2⟩
    | exact ⟨hsp1, hsp2⟩
    | exact Or.inl rfl
    | exact Or.inr ⟨by decide, by decide, by decide⟩
    | exact ⟨by decide, by decide⟩

theorem segsOK4 (e : List Char) (n : List Char) (x : List Char) (sp : List Char) (he1 : hasBB e = false) (he2 : endsLB e = false) (hn1 : hasBB n = false) (hn2 : endsLB n = false) (hx1 : hasBB x = false) (hx2 : endsLB x = false) (hsp1 : hasBB sp = false) (hsp2 : endsLB sp = false) :
    ∀ s ∈ segs4 e n x sp, SegOK .endpointSpecificInfo s := by
  intro s hs
  simp only [segs4, List.mem_cons, List.mem_singleton, List.mem_nil_iff, or_false] at hs
  rcases hs with rfl|rfl|rfl|rfl|rfl|rfl|rfl|rfl|rfl|rfl|rfl|rfl|rfl|rfl|rfl|rfl|rfl|rfl|rfl|rfl|rfl|rfl|rfl|rfl|rfl|rfl|rfl|rfl|rfl <;>
  first
    | exact ⟨he1, he2⟩
    | exact ⟨hn1, hn2⟩
    | exact ⟨hx1, hx2⟩
    | exact ⟨hsp1, hsp2⟩
    | exact Or.inl rfl
    | exact Or.inr ⟨by decide, by decide, by decide⟩
    | exact ⟨by decide, by decide⟩

/-- Every piece of the fully substituted prompt is brace-pair free and
does not end in an open brace, given that the substituted values are. -/
theorem finalSegs_scan_ok (e n x sp inf : List Char)
    (he1 : hasBB e = false) (he2 : endsLB e = false)
    (hn1 : hasBB n = false) (hn2 : endsLB n = false)
    (hx1 : hasBB x = false) (hx2 : endsLB x = false)
    (hsp1 : hasBB sp = false) (hsp2 : endsLB sp = false)
    (hinf1 : hasBB inf = false) (hinf2 : endsLB inf = false) :
    ∀ s ∈ finalSegs e n x sp inf, match s with
      | .lit p => hasBB p = false ∧ endsLB p = false
      | .tok _ => False := by
  intro s hs
  simp only [finalSegs, List.mem_cons, List.mem_singleton, List.mem_nil_iff, or_false] at hs
  rcases hs with rfl|rfl|rfl|rfl|rfl|rfl|rfl|rfl|rfl|rfl|rfl|rfl|rfl|rfl|rfl|rfl|rfl|rfl|rfl|rfl|rfl|rfl|rfl|rfl|rfl|rfl|rfl|rfl|rfl <;>
  first
    | exact ⟨he1, he2⟩
    | exact ⟨hn1, hn2⟩
    | exact ⟨hx1, hx2⟩
    | exact ⟨hsp1, hsp2⟩
    | exact ⟨hinf1, hinf2⟩
    | exact ⟨by decide, by decide⟩

/-- Chaining the five global replacements of `generateCode` over the
segmented template: the assembled prompt is the rendering of the fully
substituted segment list. -/
theorem assemblePrompt_render (endpoint : String) (config : LangConfig) (sp inf : List Char)
    (he1 : hasBB endpoint.toList = false) (he2 : endsLB endpoint.toList = false)
    (hn1 : hasBB config.name.toList = false) (hn2 : endsLB config.name.toList = false)
    (hx1 : hasBB config.extension.toList = false) (hx2 : endsLB config.extension.toList = false)
    (hsp1 : hasBB sp = false) (hsp2 : endsLB sp = false) :
    assemblePrompt getPromptTemplate endpoint config sp inf =
      render (finalSegs endpoint.toList config.name.toList config.extension.toList sp inf) := by
  unfold assemblePrompt getPromptTemplate
  rw [replace_render .endpoint (("ENDPOINT\x7d\x7d").toList) endpoint.toList (by rfl)
      templateSegs segsOK0,
    substSeg_stage1,
    replace_render .language (("LANGUAGE\x7d\x7d").toList) config.name.toList (by rfl)
      (segs1 endpoint.toList) (segsOK1 endpoint.toList he1 he2),
    substSeg_stage2,
    replace_render .languageExtension (("LANGUAGE_EXTENSION\x7d\x7d").toList)
      config.extension.toList (by rfl)
      (segs2 endpoint.toList config.name.toList)
      (segsOK2 endpoint.toList config.name.toList he1 he2 hn1 hn2),
    substSeg_stage3,
    replace_render .openapiSpec (("OPENAPI_SPEC\x7d\x7d").toList) sp (by rfl)
      (segs3 endpoint.toList config.name.toList config.extension.toList)
      (segsOK3 endpoint.toList config.name.toList config.extension.toList
        he1 he2 hn1 hn2 hx1 hx2),
    substSeg_stage4,
    replace_render .endpointSpecificInfo (("ENDPOINT_SPECIFIC_INFO\x7d\x7d").toList) inf (by rfl)
      (segs4 endpoint.toList config.name.toList config.extension.toList sp)
      (segsOK4 endpoint.toList config.name.toList config.extension.toList sp
        he1 he2 hn1 hn2 hx1 hx2 hsp1 hsp2),
    substSeg_stage5]

/-- `generateCodePrompt` on an endpoint present in the static
description assembles the prompt from the narrowed spec. -/
theorem generateCodePrompt_eq (endpoint : String) (language : SupportedLanguage)
    (info : List Char) (ep : Json)
    (hep : truthyOpt (jsGetOpt (jsGet getOpenAPISpec ("paths")) endpoint) = some ep) :
    generateCodePrompt endpoint language info =
      some (assemblePrompt getPromptTemplate endpoint (LANGUAGE_CONFIG language)
        (stringify 0 (relevantSpec getOpenAPISpec endpoint ep)) info) := by
  show (match truthyOpt (jsGetOpt (jsGet getOpenAPISpec ("paths")) endpoint) with
    | none => none
    | some endpointPath =>
      some (assemblePrompt getPromptTemplate endpoint (LANGUAGE_CONFIG language)
        (stringify 0 (relevantSpec getOpenAPISpec endpoint endpointPath)) info)) =
    some (assemblePrompt getPromptTemplate endpoint (LANGUAGE_CONFIG language)
      (stringify 0 (relevantSpec getOpenAPISpec endpoint ep)) info)
  rw [hep]

/-- Scan conditions for the per-language display name and extension. -/
theorem langConfig_scan (language : SupportedLanguage) :
    hasBB (LANGUAGE_CONFIG language).name.toList = false ∧
    endsLB (LANGUAGE_CONFIG language).name.toList = false ∧
    hasBB (LANGUAGE_CONFIG language).extension.toList = false ∧
    endsLB (LANGUAGE_CONFIG language).extension.toList = false := by
  cases language <;> exact ⟨by decide, by decide, by decide, by decide⟩

/-- The serialization of the narrowed `/quotes` spec sent in prompts. -/
def quotesSpecSer : List Char :=
  stringify 0 (relevantSpec getOpenAPISpec ("/quotes") quotesPathEntry)

/-- The serialization of the narrowed `/payments` spec sent in prompts. -/
def paymentsSpecSer : List Char :=
  stringify 0 (relevantSpec getOpenAPISpec ("/payments") paymentsPathEntry)

theorem quotesSpecSer_scan : hasBB quotesSpecSer = false ∧ endsLB quotesSpecSer = false :=
  stringify_scan 0 (relevantSpec getOpenAPISpec ("/quotes") quotesPathEntry) (by decide)

theorem paymentsSpecSer_scan : hasBB paymentsSpecSer = false ∧ endsLB paymentsSpecSer = false :=
  stringify_scan 0 (relevantSpec getOpenAPISpec ("/payments") paymentsPathEntry) (by decide)

theorem quoteInfo_scan (includeTypes : Bool) :
    hasBB (quoteEndpointInfo includeTypes) = false ∧
    endsLB (quoteEndpointInfo includeTypes) = false :=
  joinPieces_scan_ok (quoteInfoPieces includeTypes) (by cases includeTypes <;> decide)

theorem paymentInfo_scan (includeTypes : Bool) :
    hasBB (paymentEndpointInfo includeTypes) = false ∧
    endsLB (paymentEndpointInfo includeTypes) = false :=
  joinPieces_scan_ok (paymentInfoPieces includeTypes) (by cases includeTypes <;> decide)


/-! ## Claim support lemmas -/

/-- On a code-generation failure the quote handler returns a single
text block carrying the wrapped error message. -/
theorem quoteResult_of_error (collab : List Char → CollabOutcome)
    (language : SupportedLanguage) (includeTypes : Bool) (e : List Char)
    (h : generateCode collab ("/quotes") language (quoteEndpointInfo includeTypes) =
      Except.error e) :
    (getQuoteCode collab language includeTypes).content =
      [OutBlock.text ((("Error generating code: ").toList ++ e))] := by
  simp only [getQuoteCode, h]

/-- On a code-generation failure the payment handler returns a single
text block carrying the wrapped error message. -/
theorem paymentResult_of_error (collab : List Char → CollabOutcome)
    (language : SupportedLanguage) (includeTypes : Bool) (e : List Char)
    (h : generateCode collab ("/payments") language (paymentEndpointInfo includeTypes) =
      Except.error e) :
    (sendPaymentCode collab language includeTypes).content =
      [OutBlock.text ((("Error generating code: ").toList ++ e))] := by
  simp only [sendPaymentCode, h]

/-- A collaborator that throws yields the wrapped failure message. -/
theorem generateCode_threw (collab : List Char → CollabOutcome) (endpoint : String)
    (language : SupportedLanguage) (info : List Char) (ep : Json) (m : List Char)
    (hep : truthyOpt (jsGetOpt (jsGet getOpenAPISpec ("paths")) endpoint) = some ep)
    (hc : ∀ p, collab p = CollabOutcome.threw m) :
    generateCode collab endpoint language info =
      Except.error ((("Failed to generate code: ").toList ++ m)) := by
  simp only [generateCode, generateCodePrompt_eq endpoint language info ep hep, hc]

/-- A collaborator that returns no content blocks yields the wrapped
no-content message. -/
theorem generateCode_empty (collab : List Char → CollabOutcome) (endpoint : String)
    (language : SupportedLanguage) (info : List Char) (ep : Json)
    (hep : truthyOpt (jsGetOpt (jsGet getOpenAPISpec ("paths")) endpoint) = some ep)
    (hc : ∀ p, collab p = CollabOutcome.ok []) :
    generateCode collab endpoint language info =
      Except.error ((("Failed to generate code: ").toList ++
        (("No content in response from Claude").toList))) := by
  simp only [generateCode, generateCodePrompt_eq endpoint language info ep hep, hc]

/-- A collaborator whose first content block is not text yields the
wrapped unexpected-format message. -/
theorem generateCode_nontext (collab : List Char → CollabOutcome) (endpoint : String)
    (language : SupportedLanguage) (info : List Char) (ep : Json)
    (rest : List ContentBlock)
    (hep : truthyOpt (jsGetOpt (jsGet getOpenAPISpec ("paths")) endpoint) = some ep)
    (hc : ∀ p, collab p = CollabOutcome.ok (ContentBlock.other :: rest)) :
    generateCode collab endpoint language info =
      Except.error ((("Failed to generate code: ").toList ++
        (("Unexpected response format from Claude").toList))) := by
  simp only [generateCode, generateCodePrompt_eq endpoint language info ep hep, hc]

/-- An endpoint missing from the static description yields no prompt. -/
theorem generateCodePrompt_missing (endpoint : String) (language : SupportedLanguage)
    (info : List Char)
    (hep : jsGetOpt (jsGet getOpenAPISpec ("paths")) endpoint = none) :
    generateCodePrompt endpoint language info = none := by
  simp only [generateCodePrompt, hep, truthyOpt]

/-- An endpoint missing from the static description makes `generateCode`
throw its not-found message before any collaborator call. -/
theorem generateCode_missing (collab : List Char → CollabOutcome) (endpoint : String)
    (language : SupportedLanguage) (info : List Char)
    (hep : jsGetOpt (jsGet getOpenAPISpec ("paths")) endpoint = none) :
    generateCode collab endpoint language info =
      Except.error ((("Endpoint ").toList ++ endpoint.toList ++
        ((" not found in OpenAPI specification").toList))) := by
  simp only [generateCode, generateCodePrompt_missing endpoint language info hep]

/-- The wrapped handler error text starts with the word Error. -/
theorem containsL_errorPrefix (e : List Char) :
    containsL (("Error").toList) ((("Error generating code: ").toList ++ e)) = true := rfl

/-- The prompt for a quote request is the rendering of the fully
substituted template segment list. -/
theorem quotePrompt_eq (language : SupportedLanguage) (includeTypes : Bool) :
    generateCodePrompt ("/quotes") language (quoteEndpointInfo includeTypes) =
      some (render (finalSegs (("/quotes").toList) ((LANGUAGE_CONFIG language).name.toList)
      ((LANGUAGE_CONFIG language).extension.toList) quotesSpecSer (quoteEndpointInfo includeTypes))) := by
  rw [generateCodePrompt_eq ("/quotes") language (quoteEndpointInfo includeTypes)
    quotesPathEntry rfl]
  exact congrArg some (assemblePrompt_render ("/quotes") (LANGUAGE_CONFIG language)
    quotesSpecSer (quoteEndpointInfo includeTypes) (by decide) (by decide)
    (langConfig_scan language).1 (langConfig_scan language).2.1
    (langConfig_scan language).2.2.1 (langConfig_scan language).2.2.2
    quotesSpecSer_scan.1 quotesSpecSer_scan.2)

/-- The prompt for a payment request is the rendering of the fully
substituted template segment list. -/
theorem paymentPrompt_eq (language : SupportedLanguage) (includeTypes : Bool) :
    generateCodePrompt ("/payments") language (paymentEndpointInfo includeTypes) =
      some (render (finalSegs (("/payments").toList) ((LANGUAGE_CONFIG language).name.toList)
      ((LANGUAGE_CONFIG language).extension.toList) paymentsSpecSer (paymentEndpointInfo includeTypes))) := by
  rw [generateCodePrompt_eq ("/payments") language (paymentEndpointInfo includeTypes)
    paymentsPathEntry rfl]
  exact congrArg some (assemblePrompt_render ("/payments") (LANGUAGE_CONFIG language)
    paymentsSpecSer (paymentEndpointInfo includeTypes) (by decide) (by decide)
    (langConfig_scan language).1 (langConfig_scan language).2.1
    (langConfig_scan language).2.2.1 (langConfig_scan language).2.2.2
    paymentsSpecSer_scan.1 paymentsSpecSer_scan.2)

/-- A language string outside the closed enumeration parses to none. -/
theorem parseLanguage_none {s : String} (h : s ∉ languageEnumValues) :
    parseLanguage s = none := by
  unfold parseLanguage
  split_ifs with h1 h2 h3 h4 h5 h6
  · exact absurd (by rw [h1]; decide) h
  · exact absurd (by rw [h2]; decide) h
  · exact absurd (by rw [h3]; decide) h
  · exact absurd (by rw [h4]; decide) h
  · exact absurd (by rw [h5]; decide) h
  · exact absurd (by rw [h6]; decide) h
  · rfl

/-- A truthy post entry is selected first. -/
theorem pickMethod_post (path m : Json)
    (hm : truthyOpt (jsGet path ("post")) = some m) :
    pickMethod path = some m := by
  simp only [pickMethod, hm, Option.orElse]

/-- With no truthy post entry, a truthy get entry is selected. -/
theorem pickMethod_get (path m : Json)
    (h1 : truthyOpt (jsGet path ("post")) = none)
    (hm : truthyOpt (jsGet path ("get")) = some m) :
    pickMethod path = some m := by
  simp only [pickMethod, h1, hm, Option.orElse]

/-- With no truthy post or get entry, a truthy put entry is selected. -/
theorem pickMethod_put (path m : Json)
    (h1 : truthyOpt (jsGet path ("post")) = none)
    (h2 : truthyOpt (jsGet path ("get")) = none)
    (hm : truthyOpt (jsGet path ("put")) = some m) :
    pickMethod path = some m := by
  simp only [pickMethod, h1, h2, hm, Option.orElse]

/-- With no truthy post, get or put entry, a truthy delete entry is
selected. -/
theorem pickMethod_delete (path m : Json)
    (h1 : truthyOpt (jsGet path ("post")) = none)
    (h2 : truthyOpt (jsGet path ("get")) = none)
    (h3 : truthyOpt (jsGet path ("put")) = none)
    (hm : truthyOpt (jsGet path ("delete")) = some m) :
    pickMethod path = some m := by
  simp only [pickMethod, h1, h2, h3, hm, Option.orElse]

/-- With none of the four method entries truthy, no method is selected. -/
theorem pickMethod_none (path : Json)
    (h1 : truthyOpt (jsGet path ("post")) = none)
    (h2 : truthyOpt (jsGet path ("get")) = none)
    (h3 : truthyOpt (jsGet path ("put")) = none)
    (h4 : truthyOpt (jsGet path ("delete")) = none) :
    pickMethod path = none := by
  simp only [pickMethod, h1, h2, h3, h4, Option.orElse]

/-- The detail extractor on a present endpoint whose path entry selects
a method. -/
theorem getEndpointDetails_ok (spec : Json) (endpoint : String) (path method : Json)
    (hpath : truthyOpt (jsGetOpt (jsGet spec ("paths")) endpoint) = some path)
    (hm : pickMethod path = some method) :
    getEndpointDetails spec endpoint = EndpointDetailsResult.ok (extractDetails method) := by
  simp only [getEndpointDetails, hpath, hm]

/-- The detail extractor on a present endpoint whose path entry has no
supported method. -/
theorem getEndpointDetails_nomethod (spec : Json) (endpoint : String) (path : Json)
    (hpath : truthyOpt (jsGetOpt (jsGet spec ("paths")) endpoint) = some path)
    (hm : pickMethod path = none) :
    getEndpointDetails spec endpoint =
      EndpointDetailsResult.err ("No supported HTTP method found for endpoint") := by
  simp only [getEndpointDetails, hpath, hm]

/-- The literal template piece that carries the negative server-side
instructions (the text between the second and third endpoint
placeholders of the prompt template). -/
def doNotFrag : List Char :=
  ("\n- DO NOT generate any HTTP server code\n- DO NOT generate any demo endpoints (/demo, /, /quote, etc.)\n- DO NOT generate any server routes or handlers  \n- DO NOT generate any Bun.serve() or Express server code\n- DO NOT generate any console.log statements about \"running on port\"\n- The code must compile without any TypeScript errors\n- Focus ONLY on the client-side API call for ").toList

/-! ## The claims -/

/-- C1: for every supported language and every failure of the
code-generation pipeline — the collaborator call throws, returns an
empty content list, or returns a non-text first block — the
getQuoteCode and sendPaymentCode handlers return a normal tool result
whose single text block contains the word Error; and a request for an
endpoint missing from the static description is turned into the
not-found error message inside `generateCode` (wrapped the same way by
the handlers), with no exception propagating past the handler. -/
theorem C1_handlers_fail_soft :
    (∀ (language : SupportedLanguage) (includeTypes : Bool)
        (collab : List Char → CollabOutcome),
      ((∃ m, ∀ p, collab p = CollabOutcome.threw m) ∨
        (∀ p, collab p = CollabOutcome.ok []) ∨
        (∃ rest, ∀ p, collab p = CollabOutcome.ok (ContentBlock.other :: rest))) →
      (∃ t, (getQuoteCode collab language includeTypes).content = [OutBlock.text t] ∧
        containsL (("Error").toList) t = true) ∧
      (∃ t, (sendPaymentCode collab language includeTypes).content = [OutBlock.text t] ∧
        containsL (("Error").toList) t = true)) ∧
    (∀ (endpoint : String) (language : SupportedLanguage) (info : List Char)
        (collab : List Char → CollabOutcome),
      jsGetOpt (jsGet getOpenAPISpec ("paths")) endpoint = none →
      generateCode collab endpoint language info =
        Except.error ((("Endpoint ").toList ++ endpoint.toList ++
          ((" not found in OpenAPI specification").toList)))) := by
  constructor
  · intro language includeTypes collab h
    have hq : ∃ e, generateCode collab ("/quotes") language (quoteEndpointInfo includeTypes) =
        Except.error e := by
      rcases h with ⟨m, hc⟩ | hc | ⟨rest, hc⟩
      · exact ⟨_, generateCode_threw collab ("/quotes") language _ quotesPathEntry m rfl hc⟩
      · exact ⟨_, generateCode_empty collab ("/quotes") language _ quotesPathEntry rfl hc⟩
      · exact ⟨_, generateCode_nontext collab ("/quotes") language _ quotesPathEntry rest rfl hc⟩
    have hp : ∃ e, generateCode collab ("/payments") language (paymentEndpointInfo includeTypes) =
        Except.error e := by
      rcases h with ⟨m, hc⟩ | hc | ⟨rest, hc⟩
      · exact ⟨_, generateCode_threw collab ("/payments") language _ paymentsPathEntry m rfl hc⟩
      · exact ⟨_, generateCode_empty collab ("/payments") language _ paymentsPathEntry rfl hc⟩
      · exact ⟨_, generateCode_nontext collab ("/payments") language _ paymentsPathEntry rest rfl hc⟩
    obtain ⟨e1, h1⟩ := hq
    obtain ⟨e2, h2⟩ := hp
    exact ⟨⟨_, quoteResult_of_error collab language includeTypes e1 h1,
        containsL_errorPrefix e1⟩,
      ⟨_, paymentResult_of_error collab language includeTypes e2 h2,
        containsL_errorPrefix e2⟩⟩
  · intro endpoint language info collab hep
    exact generateCode_missing collab endpoint language info hep

/-- Witness for C1 at a concrete failing collaborator and a concrete
missing endpoint. -/
theorem C1_handlers_fail_soft_witness :
    (∃ t, (getQuoteCode (fun _ => CollabOutcome.ok []) SupportedLanguage.typescript
        true).content = [OutBlock.text t] ∧
      containsL (("Error").toList) t = true) ∧
    generateCode (fun _ => CollabOutcome.ok []) ("/missing") SupportedLanguage.typescript [] =
      Except.error ((("Endpoint ").toList ++ ("/missing").toList ++
        ((" not found in OpenAPI specification").toList))) :=
  ⟨(C1_handlers_fail_soft.1 SupportedLanguage.typescript true (fun _ => CollabOutcome.ok [])
      (Or.inr (Or.inl fun _ => rfl))).1,
    C1_handlers_fail_soft.2 ("/missing") SupportedLanguage.typescript []
      (fun _ => CollabOutcome.ok []) rfl⟩



/-- C2: the spec-narrowing step is an exact static allow-list keyed by
the endpoint path: for "/quotes" the narrowed components.schemas keys
are exactly QuoteRequest, QuoteData, EventEnvelope, Error, Amount,
UnixTime; for "/payments" exactly PaymentRequest, PaymentData,
EventEnvelope, Error, UnixTime; for any other endpoint there are no
schemas; and for every endpoint the narrowed spec carries
components.securitySchemes.BearerAuth,
components.parameters.IdempotencyKey, and exactly one paths entry, the
requested endpoint. -/
theorem C2_narrowing_allow_list :
    (objKeys ((jsGetOpt (jsGet (relevantSpec getOpenAPISpec ("/quotes") quotesPathEntry)
        ("components")) ("schemas")).getD Json.null) =
      [("QuoteRequest"), ("QuoteData"), ("EventEnvelope"), ("Error"), ("Amount"),
        ("UnixTime")]) ∧
    (objKeys ((jsGetOpt (jsGet (relevantSpec getOpenAPISpec ("/payments") paymentsPathEntry)
        ("components")) ("schemas")).getD Json.null) =
      [("PaymentRequest"), ("PaymentData"), ("EventEnvelope"), ("Error"), ("UnixTime")]) ∧
    (∀ (endpoint : String) (endpointPath : Json),
      endpoint ≠ "/quotes" → endpoint ≠ "/payments" →
      objKeys ((jsGetOpt (jsGet (relevantSpec getOpenAPISpec endpoint endpointPath)
        ("components")) ("schemas")).getD Json.null) = []) ∧
    (∀ (endpoint : String) (endpointPath : Json),
      (jsGetOpt (jsGetOpt (jsGet (relevantSpec getOpenAPISpec endpoint endpointPath)
        ("components")) ("securitySchemes")) ("BearerAuth")).isSome = true ∧
      (jsGetOpt (jsGetOpt (jsGet (relevantSpec getOpenAPISpec endpoint endpointPath)
        ("components")) ("parameters")) ("IdempotencyKey")).isSome = true ∧
      objKeys ((jsGet (relevantSpec getOpenAPISpec endpoint endpointPath)
        ("paths")).getD Json.null) = [endpoint]) := by
  refine ⟨by decide, by decide, ?_, fun endpoint endpointPath => ⟨rfl, rfl, rfl⟩⟩
  intro endpoint endpointPath h1 h2
  simp only [relevantSpec, if_neg h1, if_neg h2]
  rfl

/-- Witness for C2 at a concrete endpoint outside the allow-list. -/
theorem C2_narrowing_allow_list_witness :
    objKeys ((jsGetOpt (jsGet (relevantSpec getOpenAPISpec ("/webhooks") Json.null)
      ("components")) ("schemas")).getD Json.null) = [] :=
  C2_narrowing_allow_list.2.2.1 ("/webhooks") Json.null (by decide) (by decide)

/-- C3: for every language of the closed enumeration and either value
of includeTypes, the assembled quote prompt contains the literal
endpoint path "/quotes" and the negative server-side template
instructions verbatim, and the assembled payment prompt contains
"/payments", the same negative instructions, and the literal strings
payment.created, payment.settled and payment.rejected. -/
theorem C3_prompt_contents :
    ∀ (language : SupportedLanguage) (includeTypes : Bool),
    (∃ p, generateCodePrompt ("/quotes") language (quoteEndpointInfo includeTypes) = some p ∧
      containsL (("/quotes").toList) p = true ∧
      containsL (("DO NOT generate any HTTP server code").toList) p = true ∧
      containsL (("DO NOT generate any demo endpoints (/demo, /, /quote, etc.)").toList)
        p = true ∧
      containsL (("DO NOT generate any server routes or handlers").toList) p = true ∧
      containsL (("DO NOT generate any Bun.serve() or Express server code").toList)
        p = true ∧
      containsL (("DO NOT generate any console.log statements about \"running on port\"").toList)
        p = true) ∧
    (∃ p, generateCodePrompt ("/payments") language (paymentEndpointInfo includeTypes) =
        some p ∧
      containsL (("/payments").toList) p = true ∧
      containsL (("DO NOT generate any HTTP server code").toList) p = true ∧
      containsL (("payment.created").toList) p = true ∧
      containsL (("payment.settled").toList) p = true ∧
      containsL (("payment.rejected").toList) p = true) := by
  intro language includeTypes
  constructor
  · refine ⟨_, quotePrompt_eq language includeTypes, ?_, ?_, ?_, ?_, ?_, ?_⟩
    · exact containsL_render_lit _ (("/quotes").toList) _
        (List.Mem.tail _ (List.Mem.head _)) (by decide) (by decide)
    · exact containsL_render_lit _ doNotFrag _ (List.Mem.tail _ (List.Mem.tail _ (List.Mem.tail _ (List.Mem.tail _ (List.Mem.head _))))) (by decide) (by decide)
    · exact containsL_render_lit _ doNotFrag _ (List.Mem.tail _ (List.Mem.tail _ (List.Mem.tail _ (List.Mem.tail _ (List.Mem.head _))))) (by decide) (by decide)
    · exact containsL_render_lit _ doNotFrag _ (List.Mem.tail _ (List.Mem.tail _ (List.Mem.tail _ (List.Mem.tail _ (List.Mem.head _))))) (by decide) (by decide)
    · exact containsL_render_lit _ doNotFrag _ (List.Mem.tail _ (List.Mem.tail _ (List.Mem.tail _ (List.Mem.tail _ (List.Mem.head _))))) (by decide) (by decide)
    · exact containsL_render_lit _ doNotFrag _ (List.Mem.tail _ (List.Mem.tail _ (List.Mem.tail _ (List.Mem.tail _ (List.Mem.head _))))) (by decide) (by decide)
  · refine ⟨_, paymentPrompt_eq language includeTypes, ?_, ?_, ?_, ?_, ?_⟩
    · exact containsL_render_lit _ (("/payments").toList) _
        (List.Mem.tail _ (List.Mem.head _)) (by decide) (by decide)
    · exact containsL_render_lit _ doNotFrag _ (List.Mem.tail _ (List.Mem.tail _ (List.Mem.tail _ (List.Mem.tail _ (List.Mem.head _))))) (by decide) (by decide)
    · exact containsL_render_lit _ (paymentEndpointInfo includeTypes) _ (List.Mem.tail _ (List.Mem.tail _ (List.Mem.tail _ (List.Mem.tail _ (List.Mem.tail _ (List.Mem.tail _ (List.Mem.tail _ (List.Mem.tail _ (List.Mem.tail _ (List.Mem.tail _ (List.Mem.tail _ (List.Mem.tail _ (List.Mem.tail _ (List.Mem.head _)))))))))))))) (by decide)
        (containsL_join_piece _ (("- Event types: payment.created, payment.settled, payment.rejected\n").toList) (paymentInfoPieces includeTypes)
          (List.Mem.tail _ (List.Mem.tail _ (List.Mem.tail _ (List.Mem.tail _ (List.Mem.tail _ (List.Mem.tail _ (List.Mem.tail _ (List.Mem.tail _ (List.Mem.tail _ (List.Mem.head _)))))))))) (by decide) (by decide))
    · exact containsL_render_lit _ (paymentEndpointInfo includeTypes) _ (List.Mem.tail _ (List.Mem.tail _ (List.Mem.tail _ (List.Mem.tail _ (List.Mem.tail _ (List.Mem.tail _ (List.Mem.tail _ (List.Mem.tail _ (List.Mem.tail _ (List.Mem.tail _ (List.Mem.tail _ (List.Mem.tail _ (List.Mem.tail _ (List.Mem.head _)))))))))))))) (by decide)
        (containsL_join_piece _ (("- Event types: payment.created, payment.settled, payment.rejected\n").toList) (paymentInfoPieces includeTypes)
          (List.Mem.tail _ (List.Mem.tail _ (List.Mem.tail _ (List.Mem.tail _ (List.Mem.tail _ (List.Mem.tail _ (List.Mem.tail _ (List.Mem.tail _ (List.Mem.tail _ (List.Mem.head _)))))))))) (by decide) (by decide))
    · exact containsL_render_lit _ (paymentEndpointInfo includeTypes) _ (List.Mem.tail _ (List.Mem.tail _ (List.Mem.tail _ (List.Mem.tail _ (List.Mem.tail _ (List.Mem.tail _ (List.Mem.tail _ (List.Mem.tail _ (List.Mem.tail _ (List.Mem.tail _ (List.Mem.tail _ (List.Mem.tail _ (List.Mem.tail _ (List.Mem.head _)))))))))))))) (by decide)
        (containsL_join_piece _ (("- Event types: payment.created, payment.settled, payment.rejected\n").toList) (paymentInfoPieces includeTypes)
          (List.Mem.tail _ (List.Mem.tail _ (List.Mem.tail _ (List.Mem.tail _ (List.Mem.tail _ (List.Mem.tail _ (List.Mem.tail _ (List.Mem.tail _ (List.Mem.tail _ (List.Mem.head _)))))))))) (by decide) (by decide))

/-- C4: each of the five placeholder tokens occurs in the raw template,
and for every language and either value of includeTypes the assembled
quote and payment prompts contain zero remaining occurrences of any
placeholder token — every occurrence of every token was replaced. -/
theorem C4_no_remaining_placeholders :
    (∀ t : Tok, containsL (tokText t) getPromptTemplate = true) ∧
    ∀ (language : SupportedLanguage) (includeTypes : Bool),
    (∃ p, generateCodePrompt ("/quotes") language (quoteEndpointInfo includeTypes) = some p ∧
      ∀ t : Tok, containsL (tokText t) p = false) ∧
    (∃ p, generateCodePrompt ("/payments") language (paymentEndpointInfo includeTypes) =
        some p ∧
      ∀ t : Tok, containsL (tokText t) p = false) := by
  constructor
  · intro t
    cases t <;> decide
  · intro language includeTypes
    constructor
    · refine ⟨_, quotePrompt_eq language includeTypes, ?_⟩
      have hscan := render_scan_ok (finalSegs (("/quotes").toList) ((LANGUAGE_CONFIG language).name.toList)
        ((LANGUAGE_CONFIG language).extension.toList) quotesSpecSer (quoteEndpointInfo includeTypes))
        (finalSegs_scan_ok _ _ _ _ _ (by decide) (by decide)
          (langConfig_scan language).1 (langConfig_scan language).2.1
          (langConfig_scan language).2.2.1 (langConfig_scan language).2.2.2
          quotesSpecSer_scan.1 quotesSpecSer_scan.2
          (quoteInfo_scan includeTypes).1 (quoteInfo_scan includeTypes).2)
      intro t
      cases t <;> exact containsL_false_of_no_bb _ _ hscan.1
    · refine ⟨_, paymentPrompt_eq language includeTypes, ?_⟩
      have hscan := render_scan_ok (finalSegs (("/payments").toList) ((LANGUAGE_CONFIG language).name.toList)
        ((LANGUAGE_CONFIG language).extension.toList) paymentsSpecSer (paymentEndpointInfo includeTypes))
        (finalSegs_scan_ok _ _ _ _ _ (by decide) (by decide)
          (langConfig_scan language).1 (langConfig_scan language).2.1
          (langConfig_scan language).2.2.1 (langConfig_scan language).2.2.2
          paymentsSpecSer_scan.1 paymentsSpecSer_scan.2
          (paymentInfo_scan includeTypes).1 (paymentInfo_scan includeTypes).2)
      intro t
      cases t <;> exact containsL_false_of_no_bb _ _ hscan.1

/-- C5: spec-modelled boundary validation — a language argument outside
the closed enumeration (for example "java") is rejected at the tool
boundary as invalid arguments, for every collaborator, so the
collaborator is never invoked for that call. -/
theorem C5_invalid_language_rejected :
    ∀ (languageArg : String), languageArg ∉ languageEnumValues →
    ∀ (collab : List Char → CollabOutcome) (includeTypes : Bool),
      dispatchGetQuoteCode collab languageArg includeTypes =
        ToolCallOutcome.invalidArguments ∧
      dispatchSendPaymentCode collab languageArg includeTypes =
        ToolCallOutcome.invalidArguments := by
  intro s h collab includeTypes
  have hp := parseLanguage_none h
  exact ⟨by simp only [dispatchGetQuoteCode, hp], by simp only [dispatchSendPaymentCode, hp]⟩

/-- Witness for C5 at the literal argument java. -/
theorem C5_invalid_language_rejected_witness :
    dispatchGetQuoteCode (fun _ => CollabOutcome.ok []) ("java") true =
      ToolCallOutcome.invalidArguments :=
  (C5_invalid_language_rejected ("java") (by decide) (fun _ => CollabOutcome.ok []) true).1



/-- C6: for every spec and every endpoint whose path entry is present
(truthy), the detail extractor selects the operation by the fixed
priority post, then get, then put, then delete — the first truthy
method entry in that order — and when none of the four is present it
returns the no-supported-method error rather than details. -/
theorem C6_method_priority :
    ∀ (spec : Json) (endpoint : String) (path : Json),
    truthyOpt (jsGetOpt (jsGet spec ("paths")) endpoint) = some path →
    ((∀ m, truthyOpt (jsGet path ("post")) = some m →
        getEndpointDetails spec endpoint = EndpointDetailsResult.ok (extractDetails m)) ∧
      (truthyOpt (jsGet path ("post")) = none →
        ∀ m, truthyOpt (jsGet path ("get")) = some m →
          getEndpointDetails spec endpoint = EndpointDetailsResult.ok (extractDetails m)) ∧
      (truthyOpt (jsGet path ("post")) = none →
        truthyOpt (jsGet path ("get")) = none →
        ∀ m, truthyOpt (jsGet path ("put")) = some m →
          getEndpointDetails spec endpoint = EndpointDetailsResult.ok (extractDetails m)) ∧
      (truthyOpt (jsGet path ("post")) = none →
        truthyOpt (jsGet path ("get")) = none →
        truthyOpt (jsGet path ("put")) = none →
        ∀ m, truthyOpt (jsGet path ("delete")) = some m →
          getEndpointDetails spec endpoint = EndpointDetailsResult.ok (extractDetails m)) ∧
      (truthyOpt (jsGet path ("post")) = none →
        truthyOpt (jsGet path ("get")) = none →
        truthyOpt (jsGet path ("put")) = none →
        truthyOpt (jsGet path ("delete")) = none →
        getEndpointDetails spec endpoint =
          EndpointDetailsResult.err ("No supported HTTP method found for endpoint"))) := by
  intro spec endpoint path hpath
  exact ⟨fun m hm =>
      getEndpointDetails_ok spec endpoint path m hpath (pickMethod_post path m hm),
    fun h1 m hm =>
      getEndpointDetails_ok spec endpoint path m hpath (pickMethod_get path m h1 hm),
    fun h1 h2 m hm =>
      getEndpointDetails_ok spec endpoint path m hpath (pickMethod_put path m h1 h2 hm),
    fun h1 h2 h3 m hm =>
      getEndpointDetails_ok spec endpoint path m hpath (pickMethod_delete path m h1 h2 h3 hm),
    fun h1 h2 h3 h4 =>
      getEndpointDetails_nomethod spec endpoint path hpath (pickMethod_none path h1 h2 h3 h4)⟩

/-- Witness for C6: the static description selects the post operation
of the quotes path entry. -/
theorem C6_method_priority_witness :
    getEndpointDetails getOpenAPISpec ("/quotes") =
      EndpointDetailsResult.ok
        (extractDetails ((jsGet quotesPathEntry ("post")).getD Json.null)) :=
  (C6_method_priority getOpenAPISpec ("/quotes") quotesPathEntry rfl).1
    ((jsGet quotesPathEntry ("post")).getD Json.null) rfl

/-- C7: for every spec value and every endpoint that is not a key of
the paths mapping, the detail extractor returns the not-found
indicator value; being a total function of the embedded state, it
throws nothing for any input. -/
theorem C7_missing_endpoint_not_found :
    ∀ (spec : Json) (endpoint : String),
    jsGetOpt (jsGet spec ("paths")) endpoint = none →
    getEndpointDetails spec endpoint =
      EndpointDetailsResult.err ("Endpoint not found in specification") := by
  intro spec endpoint h
  simp only [getEndpointDetails, h, truthyOpt]

/-- Witness for C7 at a concrete absent endpoint. -/
theorem C7_missing_endpoint_not_found_witness :
    getEndpointDetails getOpenAPISpec ("/nope") =
      EndpointDetailsResult.err ("Endpoint not found in specification") :=
  C7_missing_endpoint_not_found getOpenAPISpec ("/nope") rfl

/-- C8 counterexample: on a path entry whose post descriptor is the
empty object (truthy in JavaScript, so it is selected), the extractor
succeeds but leaves requestSchema and responses missing — they are not
defaulted to an empty value, refuting the claim that every output
field is defaulted so that none is ever missing. -/
theorem C8_fields_counterexample :
    getEndpointDetails (J.o [(("paths"), J.o [(("/x"), J.o [(("post"), J.o [])])])])
        ("/x") = EndpointDetailsResult.ok (extractDetails (J.o [])) ∧
    (extractDetails (J.o [])).requestSchema = none ∧
    (extractDetails (J.o [])).responses = none ∧
    (extractDetails (J.o [])).summary = J.s ("") ∧
    (extractDetails (J.o [])).parameters = J.a [] :=
  ⟨rfl, rfl, rfl, rfl, rfl⟩

/-- C8 amended: of the extracted fields, summary, description and
operationId are defaulted to the empty string and parameters and tags
to the empty array when absent or falsy in the source descriptor,
while requestSchema and responses receive no default — when the
JSON-body schema or the responses entry is absent the corresponding
output field is simply missing. -/
theorem C8_fields_amended :
    ∀ (method : Json),
    (truthyOpt (jsGet method ("summary")) = none →
      (extractDetails method).summary = J.s ("")) ∧
    (truthyOpt (jsGet method ("description")) = none →
      (extractDetails method).description = J.s ("")) ∧
    (truthyOpt (jsGet method ("operationId")) = none →
      (extractDetails method).operationId = J.s ("")) ∧
    (truthyOpt (jsGet method ("parameters")) = none →
      (extractDetails method).parameters = J.a []) ∧
    (truthyOpt (jsGet method ("tags")) = none →
      (extractDetails method).tags = J.a []) ∧
    (jsGetOpt (jsGetOpt (jsGetOpt (jsGet method ("requestBody")) ("content"))
        ("application/json")) ("schema") = none →
      (extractDetails method).requestSchema = none) ∧
    (jsGet method ("responses") = none →
      (extractDetails method).responses = none) := by
  intro method
  refine ⟨fun h => ?_, fun h => ?_, fun h => ?_, fun h => ?_, fun h => ?_,
    fun h => ?_, fun h => ?_⟩ <;>
    simp only [extractDetails, h, Option.getD]

/-- Witness for C8 amended at the empty method descriptor. -/
theorem C8_fields_amended_witness :
    (extractDetails (J.o [])).operationId = J.s ("") ∧
    (extractDetails (J.o [])).tags = J.a [] :=
  ⟨(C8_fields_amended (J.o [])).2.2.1 rfl, (C8_fields_amended (J.o [])).2.2.2.2.1 rfl⟩

/-- C9: every dollar-ref cross-reference in the static description
resolves within that same description — each referenced name under
components schemas, parameters, responses and headers is a key present
in the corresponding mapping. -/
theorem C9_all_refs_resolve : allRefsResolve getOpenAPISpec = true := by decide

/-- C10: the narrowed per-request spec is not ref-closed for either
endpoint: its single path entry retains references to component
responses (EventQuote or EventPayment, Error, AuthError, Conflict,
RateLimit, and Unprocessable for payments), but its components mapping
has no responses entry and no headers entry, so resolution over the
narrowed spec fails. -/
theorem C10_narrowed_spec_dangling_refs :
    (("#/components/responses/EventQuote") ∈
      collectRefs (relevantSpec getOpenAPISpec ("/quotes") quotesPathEntry) ∧
     ("#/components/responses/Error") ∈
      collectRefs (relevantSpec getOpenAPISpec ("/quotes") quotesPathEntry) ∧
     ("#/components/responses/AuthError") ∈
      collectRefs (relevantSpec getOpenAPISpec ("/quotes") quotesPathEntry) ∧
     ("#/components/responses/Conflict") ∈
      collectRefs (relevantSpec getOpenAPISpec ("/quotes") quotesPathEntry) ∧
     ("#/components/responses/RateLimit") ∈
      collectRefs (relevantSpec getOpenAPISpec ("/quotes") quotesPathEntry)) ∧
    jsGetOpt (jsGet (relevantSpec getOpenAPISpec ("/quotes") quotesPathEntry)
      ("components")) ("responses") = none ∧
    jsGetOpt (jsGet (relevantSpec getOpenAPISpec ("/quotes") quotesPathEntry)
      ("components")) ("headers") = none ∧
    allRefsResolve (relevantSpec getOpenAPISpec ("/quotes") quotesPathEntry) = false ∧
    (("#/components/responses/EventPayment") ∈
      collectRefs (relevantSpec getOpenAPISpec ("/payments") paymentsPathEntry) ∧
     ("#/components/responses/Unprocessable") ∈
      collectRefs (relevantSpec getOpenAPISpec ("/payments") paymentsPathEntry)) ∧
    jsGetOpt (jsGet (relevantSpec getOpenAPISpec ("/payments") paymentsPathEntry)
      ("components")) ("responses") = none ∧
    jsGetOpt (jsGet (relevantSpec getOpenAPISpec ("/payments") paymentsPathEntry)
      ("components")) ("headers") = none ∧
    allRefsResolve (relevantSpec getOpenAPISpec ("/payments") paymentsPathEntry) = false := by
  refine ⟨⟨?_, ?_, ?_, ?_, ?_⟩, rfl, rfl, ?_, ⟨?_, ?_⟩, rfl, rfl, ?_⟩ <;> decide


end Tesser
